import Mathlib

/-!
# Diário Oficial scraper front end: classification and statistics

A shallow embedding of `determineType`, `updateStats`, `renderTextView` and
`exportCSV` from `dist/DiarioScraper/_internal/frontend/app.js`, with the properties
of the classifier, of its presentation table, of the statistics panel, of the layouts
of the text view and of the CSV export.

JavaScript strings are modelled by `String`; a record field that may be missing
is a `JSValue`. `String.prototype.toUpperCase` maps every code point through the
Unicode uppercase table of the runtime, independently of its neighbours; the
table is a parameter `upper : Char → List Char` of the embedding, and
`upperLatin1` is that table for the code points below U+0100.
-/

namespace DiarioScraper

/-! ## JavaScript values and strings -/

/-- A record field as delivered by `JSON.parse`: missing, `null`, or a string. -/
inductive JSValue where
  | undefined
  | null
  | str (s : String)
  deriving DecidableEq, Repr

namespace JSValue

/-- Truthiness of a field, as tested by `if (v)`, `v && …`, `v ? … : …`. -/
def truthy : JSValue → Bool
  | str s => s ≠ ""
  | _ => false

/-- The expression `v || d` for a string default `d`. -/
def orElse : JSValue → String → String
  | str s, d => if s ≠ "" then s else d
  | _, d => d

/-- String conversion of a field inside a template literal or a `+`. -/
def toStr : JSValue → String
  | undefined => "undefined"
  | null => "null"
  | str s => s

end JSValue

/-- Substring search on character lists: `pat` occurs somewhere in the list. -/
def includesList : List Char → List Char → Bool
  | [], pat => pat.isEmpty
  | c :: cs, pat => pat.isPrefixOf (c :: cs) || includesList cs pat

/-- The method `s.includes(pat)`. -/
def includes (s pat : String) : Bool :=
  includesList s.data pat.data

/-- The method `s.toUpperCase()`, over the uppercase table `upper`. -/
def toUpperCase (upper : Char → List Char) (s : String) : String :=
  ⟨s.data.flatMap upper⟩

/-- The Unicode uppercase table on Basic Latin and Latin-1 Supplement: `a`–`z` and
`à`–`þ` (without `÷`) move down by 32, `µ` becomes U+039C, `ß` becomes `SS`, `ÿ`
becomes U+0178; every other code point below U+0100 is its own uppercase. Code
points from U+0100 on are left as they are. -/
def upperLatin1 (c : Char) : List Char :=
  let n := c.toNat
  if 97 ≤ n ∧ n ≤ 122 then [Char.ofNat (n - 32)]
  else if n = 181 then [Char.ofNat 924]
  else if n = 223 then ['S', 'S']
  else if 224 ≤ n ∧ n ≤ 254 ∧ n ≠ 247 then [Char.ofNat (n - 32)]
  else if n = 255 then [Char.ofNat 376]
  else [c]

/-! ## Records -/

/-- A raw record of a search result (the objects of `allResults`). -/
structure Item where
  term : JSValue := .undefined
  summary : JSValue := .undefined
  modality : JSValue := .undefined
  doc_type : JSValue := .undefined
  amendment_number : JSValue := .undefined
  parent_contract : JSValue := .undefined
  contract_number : JSValue := .undefined
  process_number : JSValue := .undefined
  contractor : JSValue := .undefined
  company_doc : JSValue := .undefined
  object_text : JSValue := .undefined
  value : JSValue := .undefined
  date : JSValue := .undefined
  validity_start : JSValue := .undefined
  validity_end : JSValue := .undefined
  opening_date : JSValue := .undefined
  document_id : JSValue := .undefined
  link_pdf : JSValue := .undefined
  link_html : JSValue := .undefined
  deriving DecidableEq, Repr

/-- The object returned by `determineType`. -/
structure TypeInfo where
  tipo : String
  visualClass : String
  label : String
  icon : String
  deriving DecidableEq, Repr

/-! ## `determineType` -/

/-- The tipo chosen by lines 107–134: the backend type when it is set and is not
`OUTRO`, otherwise the keyword cascade over `fullTerm`. -/
def determineTipo (item : Item) (fullTerm : String) : String :=
  if item.doc_type.truthy && item.doc_type != .str "OUTRO" then
    item.doc_type.toStr
  else
    let isApostilamento := includes fullTerm "APOSTILAMENTO"
    let isAditamento := item.amendment_number.truthy || includes fullTerm "ADITAMENTO"
    let isParceria := includes fullTerm "FOMENTO" || includes fullTerm "COLABORAÇÃO"
      || includes fullTerm "COOPERAÇÃO" || includes fullTerm "TERMO DE COLABORAÇÃO"
    let isDoacao := includes fullTerm "DOAÇÃO" || includes fullTerm "COMODATO"
    let isEmpenho := includes fullTerm "EMPENHO"
    let isDiversos := includes fullTerm "ESCLARECIMENTO" || includes fullTerm "QUESTIONAMENTO"
      || includes fullTerm "IMPUGNAÇ" || includes fullTerm "IMPUGNAC"
      || includes fullTerm "DEMONSTRATIVO DAS COMPRAS"
    let isContractStrong := includes fullTerm "TERMO DE CONTRATO"
      || includes fullTerm "EXTRATO DE CONTRATO"
    let isPregao := includes fullTerm "PREGÃO" || includes fullTerm "LICITAÇÃO"
      || includes fullTerm "PREGAO" || includes fullTerm "CONVITE"
      || includes fullTerm "CONCORRÊNCIA"
    let isContractWeak := includes fullTerm "CONTRATO"
    if isApostilamento then "APOSTILAMENTO"
    else if isAditamento then "ADITAMENTO"
    else if isParceria then "PARCERIA"
    else if isDoacao then "DOACAO"
    else if isEmpenho then "EMPENHO"
    else if isDiversos then "DIVERSOS"
    else if isContractStrong then "CONTRATO"
    else if isPregao then "PREGAO"
    else if isContractWeak then "CONTRATO"
    else "OUTRO"

/-- The search text of `determineType`, line 105. -/
def fullTermOf (upper : Char → List Char) (item : Item) : String :=
  toUpperCase upper
    (item.term.orElse "" ++ " " ++ item.summary.orElse "" ++ " " ++ item.modality.orElse "")

/-- The function `determineType(item)`, lines 101–183. -/
def determineType (upper : Char → List Char) (item : Item) : TypeInfo :=
  let term := item.term.orElse ""
  let fullTerm := fullTermOf upper item
  let tipo := determineTipo item fullTerm
  if tipo = "ADITAMENTO" ∨ tipo = "APOSTILAMENTO" then
    { tipo := tipo, visualClass := "aditamento",
      label := if item.amendment_number.truthy
        then "ADITAMENTO " ++ item.amendment_number.toStr else "ADITAMENTO",
      icon := "fa-file-pen" }
  else if tipo = "PARCERIA" then
    { tipo := tipo, visualClass := "parceria", label := "PARCERIA", icon := "fa-handshake" }
  else if tipo = "DOACAO" then
    { tipo := tipo, visualClass := "doacao", label := "DOAÇÃO", icon := "fa-gift" }
  else if tipo = "CONTRATO" ∨ tipo = "EMPENHO" then
    { tipo := tipo, visualClass := "contrato",
      label := if tipo = "EMPENHO" then "EMPENHO" else "CONTRATO",
      icon := "fa-file-signature" }
  else if tipo = "PREGAO" then
    { tipo := tipo, visualClass := "pregao", label := "LICITAÇÃO", icon := "fa-gavel" }
  else if tipo = "HOMOLOGACAO" then
    { tipo := tipo, visualClass := "destaque", label := "HOMOLOGAÇÃO", icon := "fa-award" }
  else if tipo = "DIVERSOS" then
    { tipo := tipo, visualClass := "diversos", label := "DIVERSOS", icon := "fa-paperclip" }
  else if tipo = "PEDIDO_COMPRA" then
    { tipo := tipo, visualClass := "compra", label := "PEDIDO COMPRA",
      icon := "fa-cart-shopping" }
  else
    { tipo := tipo, visualClass := "outro",
      label := if term ≠ "" then term else tipo, icon := "fa-file" }

/-! ## `updateStats` -/

/-- The four counters declared at lines 294–297. -/
structure Counters where
  contratos : Nat
  pregoes : Nat
  aditamentos : Nat
  outros : Nat
  deriving DecidableEq, Repr

/-- The numbers interpolated into the statistics panel, lines 307–314. -/
structure Stats where
  contratos : Nat
  pregoes : Nat
  aditamentos : Nat
  outros : Nat
  total : Nat
  deriving DecidableEq, Repr

/-- The part of the page that `updateStats` writes: whether `#statsBox` carries the
class `hidden`, and the numbers shown by `#statsContent` (`none` while the panel was
never written). -/
structure StatsBox where
  hidden : Bool
  content : Option Stats
  deriving DecidableEq, Repr

/-- The search text of `updateStats`, line 300. -/
def statsText (upper : Char → List Char) (r : Item) : String :=
  toUpperCase upper (r.term.orElse "" ++ r.summary.orElse "")

/-- The callback of `results.forEach`, lines 299–305, on the counters. -/
def countRecord (upper : Char → List Char) (c : Counters) (r : Item) : Counters :=
  let t := statsText upper r
  if includes t "CONTRATO" then { c with contratos := c.contratos + 1 }
  else if includes t "PREGÃO" || includes t "PREGAO" then { c with pregoes := c.pregoes + 1 }
  else if includes t "ADITAMENTO" then { c with aditamentos := c.aditamentos + 1 }
  else { c with outros := c.outros + 1 }

/-- The counters after the loop of lines 294–305. -/
def countRecords (upper : Char → List Char) (results : List Item) : Counters :=
  results.foldl (countRecord upper) ⟨0, 0, 0, 0⟩

/-- The function `updateStats(results)`, lines 285–316, on the statistics box. -/
def updateStats (upper : Char → List Char) (results : List Item) (box : StatsBox) : StatsBox :=
  if results.length = 0 then
    { box with hidden := true }
  else
    let c := countRecords upper results
    { hidden := false,
      content := some ⟨c.contratos, c.pregoes, c.aditamentos, c.outros, results.length⟩ }

/-! ## `renderTextView` -/

/-- The property `s.length`: the number of UTF-16 code units of a string. -/
def jsLength (s : String) : Nat :=
  (s.data.map (fun c => if c.toNat < 65536 then 1 else 2)).sum

/-- The arrow function `P(label, value)`, line 382. -/
def P (label value : String) : String :=
  "<p><strong>" ++ label ++ "</strong> " ++ value ++ "</p>"

/-- The opening tag of an item block, line 384. -/
def itemOpen (visualClass : String) : String :=
  "<div class=\"text-item type-" ++ visualClass ++ "\">"

/-- The paragraph with the link to the process, lines 390, 414, 430 and 443. -/
def processLink (item : Item) : String :=
  "<p><strong>• Processo SEI: </strong> <a href=\"" ++ item.link_html.toStr
    ++ "\" target=\"_blank\" style=\"color:blue;text-decoration:none\">"
    ++ item.process_number.orElse "-" ++ "</a></p>"

/-- The paragraph naming an amendment and its contract, lines 392–397. -/
def amendmentLine (labelTipo : String) (item : Item) : String :=
  let numAdit := item.amendment_number.orElse "S/N"
  let numPai := item.parent_contract.orElse "S/N"
  "<p>\n                 <strong>" ++ labelTipo ++ " nº </strong> <a href=\""
    ++ item.link_pdf.toStr
    ++ "\" target=\"_blank\" style=\"color:blue;text-decoration:none\">" ++ numAdit
    ++ "</a> \n                 <strong>ao Contrato nº </strong> " ++ numPai
    ++ "\n             </p>"

/-- The paragraph naming the instrument of a partnership, lines 416–419. -/
def partnershipLine (item : Item) : String :=
  let numInst := item.contract_number.orElse "S/N"
  "<p>\n                 <strong>Instrumento nº </strong> <a href=\"" ++ item.link_pdf.toStr
    ++ "\" target=\"_blank\" style=\"color:blue;text-decoration:none\">" ++ numInst
    ++ "</a>\n             </p>"

/-- The paragraph naming the instrument of a donation, line 431. -/
def donationLine (item : Item) : String :=
  "<p><strong>Instrumento: </strong> <a href=\"" ++ item.link_pdf.toStr
    ++ "\" target=\"_blank\" style=\"color:blue;text-decoration:none\">"
    ++ "Termo de Doação/Comodato</a></p>"

/-- The text `, company_doc` appended to a contractor, lines 399 and 447. -/
def companyDocSuffix (item : Item) : String :=
  if item.company_doc.truthy && item.company_doc != .str "-" then
    ", " ++ item.company_doc.toStr
  else ""

/-- The paragraph naming a contract or a commitment note, lines 445–448. -/
def contractLine (labelInst : String) (item : Item) : String :=
  let numCont :=
    if item.contract_number.truthy && item.contract_number != .str "-" then
      item.contract_number.toStr
    else "S/N"
  "<p>\n                <strong>" ++ labelInst ++ " nº </strong> <a href=\""
    ++ item.link_pdf.toStr
    ++ "\" target=\"_blank\" style=\"color:blue;text-decoration:none\">" ++ numCont
    ++ "</a> - " ++ item.contractor.toStr ++ " " ++ companyDocSuffix item
    ++ "\n            </p>"

/-- The banner of a miscellaneous publication, line 467. -/
def diversosBanner : String :=
  "<p style=\"opacity: 0.7; font-size: 0.9em;\"><em>[Publicação Diversa - Baixa Prioridade]</em></p>"

/-- The paragraph with the number of a publication, lines 472–477. -/
def publicationLine (modality : String) (item : Item) : String :=
  let pubNum :=
    if item.contract_number.truthy && decide (jsLength item.contract_number.toStr > 2) then
      item.contract_number.toStr
    else "S/N"
  let pubLabel := if modality ≠ "" ∧ modality ≠ "-" then modality else "PUBLICACAO"
  "<p>\n                <strong>Número da Publicação: </strong> \n                <a href=\""
    ++ item.link_pdf.toStr
    ++ "\" target=\"_blank\" style=\"color:blue;text-decoration:none\">" ++ pubLabel ++ " "
    ++ pubNum ++ "</a>\n             </p>"

/-- The paragraph with the link to the document, line 479. -/
def documentLine (item : Item) : String :=
  "<p><strong>Documento: </strong> <a href=\"" ++ item.link_html.toStr
    ++ "\" target=\"_blank\" style=\"color:blue;text-decoration:none\">"
    ++ item.document_id.orElse "-" ++ "</a></p>"

/-- The body of the callback of `results.forEach`, lines 379–491, after `tipo` and
`visualClass` were read off `determineType(item)`: the fragments appended to `html`,
in the order of the `html +=` statements. -/
def renderLayout (tipo visualClass : String) (item : Item) : List String :=
  let modality := item.modality.orElse ""
  let objText := item.object_text.orElse "-"
  let html := [itemOpen visualClass]
  let html :=
    if tipo = "ADITAMENTO" ∨ tipo = "APOSTILAMENTO" then
      let labelTipo := if tipo = "APOSTILAMENTO" then "Apostilamento" else "Aditamento"
      let html := html ++ [processLink item]
      let html := html ++ [amendmentLine labelTipo item]
      let html := html ++
        [P "Contratada:" (item.contractor.orElse "-" ++ " " ++ companyDocSuffix item)]
      let html :=
        if modality ≠ "" ∧ modality ≠ "-" then html ++ [P "Modalidade:" modality] else html
      let html := html ++ [P "Objeto:" objText]
      let html := html ++ [P "Data da Assinatura:" (item.validity_start.orElse "-")]
      let html := html ++ [P "Data da Publicação:" item.date.toStr]
      let html :=
        if item.validity_end.truthy && item.validity_end != .str "-" then
          html ++ [P "Vigência:" (item.validity_start.toStr ++ " e " ++ item.validity_end.toStr)]
        else html
      html ++ [P "Valor:" (item.value.orElse "Sem efeito financeiros")]
    else if tipo = "PARCERIA" then
      let html := html ++ [processLink item]
      let html := html ++ [partnershipLine item]
      let html := html ++ [P "Participe/OS:" (item.contractor.orElse "-")]
      let html := html ++ [P "Objeto:" objText]
      let html := html ++
        [P "Vigência:" (item.validity_start.orElse "-" ++ " a " ++ item.validity_end.orElse "-")]
      let html := html ++ [P "Valor:" (item.value.orElse "-")]
      html ++ [P "Data da Publicação:" item.date.toStr]
    else if tipo = "DOACAO" then
      let html := html ++ [processLink item]
      let html := html ++ [donationLine item]
      let html := html ++ [P "Doador/Comodatário:" (item.contractor.orElse "-")]
      let html := html ++ [P "Objeto:" objText]
      let html := html ++ [P "Encargos:" "Sem ônus para a municipalidade"]
      html ++ [P "Data da Publicação:" item.date.toStr]
    else if tipo = "CONTRATO" ∨ tipo = "EMPENHO" then
      let labelInst := if tipo = "EMPENHO" then "Nota de Empenho" else "Contrato"
      let html := html ++ [processLink item]
      let html := html ++ [contractLine labelInst item]
      let html :=
        if modality ≠ "" ∧ modality ≠ "-" then html ++ [P "Modalidade:" modality] else html
      let html := html ++ [P "Objeto:" objText]
      let html := html ++ [P "Data da Assinatura:" (item.validity_start.orElse "-")]
      let html :=
        if tipo = "CONTRATO" then
          let html := html ++
            [P "Início da Vigência do Contrato:" (item.validity_start.orElse "-")]
          html ++ [P "Término da Vigência do Contrato:" (item.validity_end.orElse "-")]
        else html
      let html := html ++ [P "Data da Publicação:" item.date.toStr]
      html ++ [P "Valor:" (item.value.orElse "Sem efeito financeiros")]
    else
      let html := if tipo = "DIVERSOS" then html ++ [diversosBanner] else html
      let html := html ++ [P "Número do Processo:" (item.process_number.orElse "-")]
      let html := html ++ [publicationLine modality item]
      let html := html ++ [documentLine item]
      let html :=
        if tipo ≠ "DIVERSOS" then
          let html := html ++ [P "Licitante Vencedor:" (item.contractor.orElse "EM PROCESSO")]
          let html := html ++ [P "Modalidade:" modality]
          html ++ [P "Data da Abertura:" (item.opening_date.orElse "-")]
        else html
      let html := html ++ [P "Objeto:" objText]
      html ++ [P "Data de Publicação:" item.date.toStr]
  html ++ ["</div>"]

/-- The fragments that one record adds to `html`, lines 377–492. -/
def renderItem (upper : Char → List Char) (item : Item) : List String :=
  let info := determineType upper item
  renderLayout info.tipo info.visualClass item

/-- The heading written before the items, lines 370–375. -/
def textDocHeader : String :=
  "\n        <div class=\"text-doc-header\">\n            <i class=\"fa-solid fa-file-contract\" style=\"font-size: 1.5rem; color: var(--primary);\"></i>\n            <h2>RESULTADOS - DIÁRIO OFICIAL</h2>\n        </div>\n    "

/-- The function `renderTextView(results)`, lines 362–495: the text assigned to
`container.innerHTML`. -/
def renderTextView (upper : Char → List Char) (results : List Item) : String :=
  if results.length = 0 then "<p>Sem resultados.</p>"
  else String.join (textDocHeader :: results.flatMap (renderItem upper))

/-! ## `exportCSV` -/

/-- The call `s.replace(/"/g, '""')`: every double quote is doubled. -/
def doubleQuotes (s : String) : String :=
  ⟨s.data.flatMap (fun c => if c = '"' then ['"', '"'] else [c])⟩

/-- The method `Array.prototype.join` on cells: `undefined` and `null` give the
empty text. -/
def joinCells (sep : String) : List JSValue → String
  | [] => ""
  | [v] => (match v with | .str s => s | _ => "")
  | v :: w :: rest => (match v with | .str s => s | _ => "") ++ sep ++ joinCells sep (w :: rest)

/-- The array `line` of one row, lines 339–347; `none` when `row.object_text` is
not a string, where `row.object_text.replace` raises a `TypeError`. -/
def csvCells (row : Item) : Option (List JSValue) :=
  match row.object_text with
  | .str objectText =>
    some [ row.date,
      .str ("\"" ++ row.term.toStr ++ "\""),
      .str ("\"" ++ doubleQuotes objectText ++ "\""),
      .str ("\"" ++ row.value.toStr ++ "\""),
      row.process_number,
      .str ("\"" ++ row.contractor.toStr ++ "\""),
      row.link_pdf ]
  | _ => none

/-- The loop of lines 338–349 from the content `csvContent`; `none` when a row
raises. -/
def exportRows : List Item → String → Option String
  | [], csvContent => some csvContent
  | row :: rest, csvContent =>
    match csvCells row with
    | some line => exportRows rest (csvContent ++ joinCells "," line ++ "\n")
    | none => none

/-- What a call of `exportCSV` does: it alerts and returns, it raises a `TypeError`,
or it offers the CSV text for download. -/
inductive ExportOutcome where
  | alert (message : String)
  | typeError
  | csv (csvContent : String)
  deriving DecidableEq, Repr

/-- The header cells of the CSV, line 335. -/
def csvHeaders : List JSValue :=
  [.str "Data", .str "Termo", .str "Objeto", .str "Valor", .str "Processo",
   .str "Contratada", .str "Link PDF"]

/-- The function `exportCSV()`, lines 329–358, on the result set `allResults`. -/
def exportCSV (allResults : List Item) : ExportOutcome :=
  if allResults.length = 0 then .alert "Nada para exportar!"
  else
    match exportRows allResults (joinCells "," csvHeaders ++ "\n") with
    | some csvContent => .csv csvContent
    | none => .typeError

/-! ## The specification's tables -/

/-- A record carries no backend hint: `doc_type` is absent, empty or `OUTRO`. -/
def NoHint (item : Item) : Prop :=
  item.doc_type = .undefined ∨ item.doc_type = .null ∨ item.doc_type = .str ""
    ∨ item.doc_type = .str "OUTRO"

/-- A row of the priority table of the classifier: the type it assigns, whether a
non-empty `amendment_number` triggers it, and its keywords. -/
structure Rule where
  tipo : String
  byAmendment : Bool
  keywords : List String
  deriving DecidableEq, Repr

/-- The nine rows of the priority table, in priority order. -/
def priorityTable : List Rule :=
  [ ⟨"APOSTILAMENTO", false, ["APOSTILAMENTO"]⟩,
    ⟨"ADITAMENTO", true, ["ADITAMENTO"]⟩,
    ⟨"PARCERIA", false, ["FOMENTO", "COLABORAÇÃO", "COOPERAÇÃO", "TERMO DE COLABORAÇÃO"]⟩,
    ⟨"DOACAO", false, ["DOAÇÃO", "COMODATO"]⟩,
    ⟨"EMPENHO", false, ["EMPENHO"]⟩,
    ⟨"DIVERSOS", false,
      ["ESCLARECIMENTO", "QUESTIONAMENTO", "IMPUGNAÇ", "IMPUGNAC", "DEMONSTRATIVO DAS COMPRAS"]⟩,
    ⟨"CONTRATO", false, ["TERMO DE CONTRATO", "EXTRATO DE CONTRATO"]⟩,
    ⟨"PREGAO", false, ["PREGÃO", "LICITAÇÃO", "PREGAO", "CONVITE", "CONCORRÊNCIA"]⟩,
    ⟨"CONTRATO", false, ["CONTRATO"]⟩ ]

/-- A row matches when its amendment trigger fires or the haystack contains one of
its keywords. -/
def Rule.fires (r : Rule) (amendment : JSValue) (haystack : String) : Bool :=
  (r.byAmendment && amendment.truthy) || r.keywords.any (fun k => includes haystack k)

/-- The first row of the priority table that matches, if any. -/
def firstRule (amendment : JSValue) (haystack : String) : Option Rule :=
  priorityTable.find? (fun r => r.fires amendment haystack)

/-- The type given by the priority table: that of the first matching row, `OUTRO`
when no row matches. -/
def classifyByTable (amendment : JSValue) (haystack : String) : String :=
  match firstRule amendment haystack with
  | some r => r.tipo
  | none => "OUTRO"

/-- All nineteen fields of a record. -/
def Item.fields (item : Item) : List JSValue :=
  [item.term, item.summary, item.modality, item.doc_type, item.amendment_number,
   item.parent_contract, item.contract_number, item.process_number, item.contractor,
   item.company_doc, item.object_text, item.value, item.date, item.validity_start,
   item.validity_end, item.opening_date, item.document_id, item.link_pdf, item.link_html]

/-- The closed enumeration of canonical types named by the specification. -/
def canonicalTypes : List String :=
  ["APOSTILAMENTO", "ADITAMENTO", "PARCERIA", "DOACAO", "EMPENHO", "DIVERSOS", "CONTRATO",
   "PREGAO", "OUTRO", "HOMOLOGACAO"]

/-- The nine types that the text heuristic can infer. -/
def inferredTypes : List String :=
  ["APOSTILAMENTO", "ADITAMENTO", "PARCERIA", "DOACAO", "EMPENHO", "DIVERSOS", "CONTRATO",
   "PREGAO", "OUTRO"]

/-- The rows of the presentation table with a fixed label: tipo, visual category,
icon tag (without the `fa-` prefix) and label. -/
def presentationTable : List (String × String × String × String) :=
  [ ("PARCERIA", "parceria", "handshake", "PARCERIA"),
    ("DOACAO", "doacao", "gift", "DOAÇÃO"),
    ("CONTRATO", "contrato", "file-signature", "CONTRATO"),
    ("EMPENHO", "contrato", "file-signature", "EMPENHO"),
    ("PREGAO", "pregao", "gavel", "LICITAÇÃO"),
    ("HOMOLOGACAO", "destaque", "award", "HOMOLOGAÇÃO"),
    ("DIVERSOS", "diversos", "paperclip", "DIVERSOS"),
    ("PEDIDO_COMPRA", "compra", "cart-shopping", "PEDIDO COMPRA") ]

/-- The presentation row selected by a tipo: visual category, emitted icon class and
label. The amendment row carries the amendment number in its label when there is one;
a tipo without a row of its own gets the default row, labelled by the term when there
is one and by the tipo otherwise. -/
def presentationOf (tipo : String) (amendment term : JSValue) : String × String × String :=
  if tipo = "ADITAMENTO" ∨ tipo = "APOSTILAMENTO" then
    ("aditamento", "fa-" ++ "file-pen",
      match amendment with
      | .str n => if n ≠ "" then "ADITAMENTO " ++ n else "ADITAMENTO"
      | _ => "ADITAMENTO")
  else
    match presentationTable.lookup tipo with
    | some (visual, icon, label) => (visual, "fa-" ++ icon, label)
    | none =>
      ("outro", "fa-" ++ "file",
        match term with
        | .str t => if t ≠ "" then t else tipo
        | _ => tipo)

/-- The tipos that have a row of their own in the presentation table. -/
def namedTypes : List String :=
  ["ADITAMENTO", "APOSTILAMENTO"] ++ presentationTable.map (fun row => row.1)

/-- The four buckets of the statistics panel. -/
inductive Bucket where
  | contratos
  | pregoes
  | aditamentos
  | outros
  deriving DecidableEq, Repr

/-- The keywords of the aggregator, in matching order, each with its bucket. -/
def bucketTable : List (String × Bucket) :=
  [("CONTRATO", .contratos), ("PREGÃO", .pregoes), ("PREGAO", .pregoes),
   ("ADITAMENTO", .aditamentos)]

/-- The text of a field for matching: an absent field counts as empty. -/
def JSValue.text : JSValue → String
  | .str s => s
  | _ => ""

/-- The bucket of a record in the reference bucketing: the first keyword of
`bucketTable` found in the uppercased `term` followed directly by `summary`,
`outros` when none is found. -/
def bucketOf (upper : Char → List Char) (r : Item) : Bucket :=
  match bucketTable.find? (fun kb => includes (toUpperCase upper (r.term.text ++ r.summary.text)) kb.1) with
  | some kb => kb.2
  | none => .outros

/-- The reference statistics of a result set: every record is counted once, in its
bucket, and the total is the number of records. -/
def referenceStats (upper : Char → List Char) (results : List Item) : Stats :=
  { contratos := results.countP (fun r => bucketOf upper r = .contratos),
    pregoes := results.countP (fun r => bucketOf upper r = .pregoes),
    aditamentos := results.countP (fun r => bucketOf upper r = .aditamentos),
    outros := results.countP (fun r => bucketOf upper r = .outros),
    total := results.length }

/-- A field with its text replaced by its uppercase form; an absent field stays
absent. -/
def JSValue.upcase (upper : Char → List Char) : JSValue → JSValue
  | .str s => .str (toUpperCase upper s)
  | v => v

/-- A record with `term`, `summary` and `modality` replaced by their uppercase
forms. -/
def Item.uppercased (upper : Char → List Char) (item : Item) : Item :=
  { item with
    term := item.term.upcase upper,
    summary := item.summary.upcase upper,
    modality := item.modality.upcase upper }

/-- Reading a quoted text back: every doubled double quote becomes a single one. -/
def undoubleQuotes : List Char → List Char
  | [] => []
  | [c] => [c]
  | c :: d :: rest =>
    if c = '"' ∧ d = '"' then '"' :: undoubleQuotes rest
    else c :: undoubleQuotes (d :: rest)

/-- Reading a CSV cell back: the outer quotes are removed and the doubled quotes
undone. -/
def unquoteCell (cell : String) : String :=
  ⟨undoubleQuotes cell.data.tail.dropLast⟩

/-- A text as a quoted CSV cell: wrapped in double quotes, internal quotes doubled. -/
def quotedCell (text : String) : String :=
  "\"" ++ doubleQuotes text ++ "\""

/-- A field is present: a non-empty string other than the placeholder `-`. -/
def JSValue.present : JSValue → Bool
  | .str s => decide (s ≠ "") && decide (s ≠ "-")
  | _ => false

/-- A rendering holds a field line with the given label: one of its fragments opens
with `<p><strong>label</strong> `. -/
def hasLine (label : String) (fragments : List String) : Bool :=
  fragments.any (fun f => ("<p><strong>" ++ label ++ "</strong> ").data.isPrefixOf f.data)

/-- The publication line with the label worded as `modality or PUBLICACAO`: the
modality whenever it is not empty, `PUBLICACAO` otherwise. -/
def publicationLineByModality (item : Item) : String :=
  "<p>\n                <strong>Número da Publicação: </strong> \n                <a href=\""
    ++ item.link_pdf.toStr
    ++ "\" target=\"_blank\" style=\"color:blue;text-decoration:none\">"
    ++ item.modality.orElse "PUBLICACAO" ++ " "
    ++ (match item.contract_number with
        | .str n => if jsLength n > 2 then n else "S/N"
        | _ => "S/N")
    ++ "</a>\n             </p>"

/-- The six types with a layout of their own in the text view. -/
def layoutTypes : List String :=
  ["ADITAMENTO", "APOSTILAMENTO", "PARCERIA", "DOACAO", "CONTRATO", "EMPENHO"]

/-- The tipo of `determineTipo` with the check for `TERMO DE COLABORAÇÃO` deleted
from the PARCERIA trigger, which keeps `FOMENTO`, `COLABORAÇÃO` and `COOPERAÇÃO`. -/
def determineTipoWithoutTermoDeColaboracao (item : Item) (fullTerm : String) : String :=
  if item.doc_type.truthy && item.doc_type != .str "OUTRO" then
    item.doc_type.toStr
  else
    let isApostilamento := includes fullTerm "APOSTILAMENTO"
    let isAditamento := item.amendment_number.truthy || includes fullTerm "ADITAMENTO"
    let isParceria := includes fullTerm "FOMENTO" || includes fullTerm "COLABORAÇÃO"
      || includes fullTerm "COOPERAÇÃO"
    let isDoacao := includes fullTerm "DOAÇÃO" || includes fullTerm "COMODATO"
    let isEmpenho := includes fullTerm "EMPENHO"
    let isDiversos := includes fullTerm "ESCLARECIMENTO" || includes fullTerm "QUESTIONAMENTO"
      || includes fullTerm "IMPUGNAÇ" || includes fullTerm "IMPUGNAC"
      || includes fullTerm "DEMONSTRATIVO DAS COMPRAS"
    let isContractStrong := includes fullTerm "TERMO DE CONTRATO"
      || includes fullTerm "EXTRATO DE CONTRATO"
    let isPregao := includes fullTerm "PREGÃO" || includes fullTerm "LICITAÇÃO"
      || includes fullTerm "PREGAO" || includes fullTerm "CONVITE"
      || includes fullTerm "CONCORRÊNCIA"
    let isContractWeak := includes fullTerm "CONTRATO"
    if isApostilamento then "APOSTILAMENTO"
    else if isAditamento then "ADITAMENTO"
    else if isParceria then "PARCERIA"
    else if isDoacao then "DOACAO"
    else if isEmpenho then "EMPENHO"
    else if isDiversos then "DIVERSOS"
    else if isContractStrong then "CONTRATO"
    else if isPregao then "PREGAO"
    else if isContractWeak then "CONTRATO"
    else "OUTRO"

/-- The tipo of `determineTipo` with the strong-contract rule (`TERMO DE CONTRATO`,
`EXTRATO DE CONTRATO`) deleted. -/
def determineTipoWithoutStrongContract (item : Item) (fullTerm : String) : String :=
  if item.doc_type.truthy && item.doc_type != .str "OUTRO" then
    item.doc_type.toStr
  else
    let isApostilamento := includes fullTerm "APOSTILAMENTO"
    let isAditamento := item.amendment_number.truthy || includes fullTerm "ADITAMENTO"
    let isParceria := includes fullTerm "FOMENTO" || includes fullTerm "COLABORAÇÃO"
      || includes fullTerm "COOPERAÇÃO" || includes fullTerm "TERMO DE COLABORAÇÃO"
    let isDoacao := includes fullTerm "DOAÇÃO" || includes fullTerm "COMODATO"
    let isEmpenho := includes fullTerm "EMPENHO"
    let isDiversos := includes fullTerm "ESCLARECIMENTO" || includes fullTerm "QUESTIONAMENTO"
      || includes fullTerm "IMPUGNAÇ" || includes fullTerm "IMPUGNAC"
      || includes fullTerm "DEMONSTRATIVO DAS COMPRAS"
    let isPregao := includes fullTerm "PREGÃO" || includes fullTerm "LICITAÇÃO"
      || includes fullTerm "PREGAO" || includes fullTerm "CONVITE"
      || includes fullTerm "CONCORRÊNCIA"
    let isContractWeak := includes fullTerm "CONTRATO"
    if isApostilamento then "APOSTILAMENTO"
    else if isAditamento then "ADITAMENTO"
    else if isParceria then "PARCERIA"
    else if isDoacao then "DOACAO"
    else if isEmpenho then "EMPENHO"
    else if isDiversos then "DIVERSOS"
    else if isPregao then "PREGAO"
    else if isContractWeak then "CONTRATO"
    else "OUTRO"

/-! ## Concrete records -/

/-- A record with a backend hint and a text that the cascade would type otherwise. -/
def hintedRecord : Item :=
  { doc_type := .str "HOMOLOGACAO", term := .str "TERMO DE CONTRATO",
    summary := .str "aditamento ao pregão", amendment_number := .str "3" }

/-- A record without hint whose text names a contract and a bidding. -/
def contratoPregaoRecord : Item :=
  { term := .str "Contrato", summary := .str "decorrente do pregão eletrônico" }

/-- A record without hint, with an amendment number, whose text is an apostille. -/
def apostilaRecord : Item :=
  { term := .str "APOSTILAMENTO", amendment_number := .str "1" }

/-- A record without hint, with an amendment number, naming a contract and a bidding. -/
def aditivoRecord : Item :=
  { term := .str "CONTRATO", summary := .str "PREGÃO", amendment_number := .str "2" }

/-- The record `{doc_type:'OUTRO', term:'CONTRATO Nº 5', contract_number:'5'}`. -/
def contratoN5 : Item :=
  { doc_type := .str "OUTRO", term := .str "CONTRATO Nº 5", contract_number := .str "5" }

/-- The record with every field absent. -/
def emptyRecord : Item := {}

/-- A record whose backend hint is a type outside the enumeration. -/
def pedidoCompraRecord : Item :=
  { doc_type := .str "PEDIDO_COMPRA", term := .str "Pedido de compra 12" }

/-- Two records without keywords, differing in their term. -/
def avisoRecord : Item := { term := .str "Aviso" }

/-- The second record without keywords. -/
def comunicadoRecord : Item := { term := .str "Comunicado" }

/-- An amendment record whose summary names the contract it amends. -/
def aditivoDeContrato : Item :=
  { term := .str "Termo Aditivo", summary := .str "Aditamento ao contrato de limpeza",
    amendment_number := .str "4" }

/-- A statistics box that shows the counts of an earlier search of one contract. -/
def shownBox : StatsBox :=
  { hidden := false, content := some ⟨1, 0, 0, 0, 1⟩ }

/-- An amendment record with the number of `aditivoRecord` and another text. -/
def aditivoRecordB : Item :=
  { term := .str "Termo de aditamento", amendment_number := .str "2" }

/-- A result set with a record for every bucket of the statistics panel. -/
def sampleResults : List Item :=
  [ contratoPregaoRecord, { term := .str "Pregão 12" }, { summary := .str "aditamento 3" },
    avisoRecord, aditivoDeContrato ]

/-- A record whose object text holds double quotes. -/
def bensRecord : Item :=
  { date := .str "04/11/2025", term := .str "Contrato", object_text := .str "Aquisição de \"bens\"",
    value := .str "R$ 10,00", process_number := .str "6016.2025/0001-1",
    contractor := .str "ACME LTDA", link_pdf := .str "https://diario.example/1.pdf" }

/-- A record whose term, value and contractor hold double quotes. -/
def quotedTermRecord : Item :=
  { date := .str "04/11/2025", term := .str "Pregão \"A\"", object_text := .str "Papel",
    value := .str "R$ \"10\"", process_number := .str "6016.2025/0001-1",
    contractor := .str "ACME \"Sul\" LTDA", link_pdf := .str "https://diario.example/1.pdf" }

/-- A record without `object_text`. -/
def noObjectRecord : Item :=
  { date := .str "04/11/2025", term := .str "Aviso", process_number := .str "6016.2025/0001-1" }

/-- A record whose only text is a lowercase term. -/
def pregaoLowerRecord : Item := { term := .str "pregão eletrônico" }

/-- The same record with its term in capitals. -/
def pregaoUpperRecord : Item := { term := .str "PREGÃO ELETRÔNICO" }

/-- A record whose only text is the donation keyword without its diacritics. -/
def doacaoPlainRecord : Item := { term := .str "DOACAO" }

/-- A record whose only text is the donation keyword, in lowercase. -/
def doacaoRecord : Item := { term := .str "doação" }

/-- The record `{term:'ADITAMENTO', summary:'', modality:'-', amendment_number:'2',
parent_contract:'15', value:null}`. -/
def scenarioAditamento : Item :=
  { term := .str "ADITAMENTO", summary := .str "", modality := .str "-",
    amendment_number := .str "2", parent_contract := .str "15", value := .null }

/-- A contract record with every field of its layout present. -/
def fullContrato : Item :=
  { term := .str "Extrato de contrato", summary := .str "Extrato de contrato de limpeza",
    modality := .str "Pregão Eletrônico", contract_number := .str "012/2025",
    process_number := .str "6016.2025/0001-1", contractor := .str "ACME LTDA",
    company_doc := .str "12.345.678/0001-90", object_text := .str "Serviços de limpeza",
    value := .str "R$ 10.000,00", date := .str "04/11/2025",
    validity_start := .str "01/11/2025", validity_end := .str "31/10/2026",
    link_pdf := .str "https://diario.example/1.pdf",
    link_html := .str "https://diario.example/1.html" }

/-- A commitment note with validity dates. -/
def empenhoRecord : Item :=
  { term := .str "Nota de Empenho", validity_start := .str "01/11/2025",
    validity_end := .str "31/10/2026" }

/-- A record without keywords whose modality is the placeholder `-`. -/
def avisoDashRecord : Item :=
  { term := .str "Aviso", modality := .str "-" }

/-- A miscellaneous publication. -/
def diversosRecord : Item :=
  { term := .str "Esclarecimento", contract_number := .str "12" }

/-- A record without hint that names a contract term and a bidding. -/
def termoDeContratoPregao : Item :=
  { term := .str "Termo de Contrato", summary := .str "decorrente do Pregão 12/2025" }

/-- A record without hint that names a collaboration term. -/
def termoDeColaboracaoRecord : Item :=
  { term := .str "Termo de colaboração 3/2025" }

/-- An apostille record with every field of its layout present. -/
def fullApostila : Item :=
  { term := .str "Apostilamento", modality := .str "Pregão Eletrônico",
    amendment_number := .str "1", parent_contract := .str "012/2025",
    process_number := .str "6016.2025/0001-1", contractor := .str "ACME LTDA",
    company_doc := .str "12.345.678/0001-90", object_text := .str "Reajuste",
    value := .str "R$ 500,00", date := .str "04/11/2025",
    validity_start := .str "01/11/2025", validity_end := .str "31/10/2026",
    link_pdf := .str "https://diario.example/1.pdf",
    link_html := .str "https://diario.example/1.html" }

/-- A bidding record with every field of the default layout present. -/
def pregaoFull : Item :=
  { term := .str "Pregão Eletrônico 12/2025", modality := .str "Pregão Eletrônico",
    contract_number := .str "12/2025", process_number := .str "6016.2025/0001-1",
    contractor := .str "ACME LTDA", object_text := .str "Papel A4",
    date := .str "04/11/2025", opening_date := .str "10/11/2025",
    document_id := .str "DOC-123", link_pdf := .str "https://diario.example/1.pdf",
    link_html := .str "https://diario.example/1.html" }

/-- A partnership record with nothing but its term. -/
def fomentoRecord : Item := { term := .str "Termo de Fomento" }

/-- A donation record with nothing but its term. -/
def doacaoBlankRecord : Item := { term := .str "Termo de Doação" }

/-- A partnership record with every field of its layout present. -/
def fullParceria : Item :=
  { term := .str "Termo de Fomento 3/2025", contract_number := .str "3/2025",
    process_number := .str "6016.2025/0001-1", contractor := .str "Instituto Sul",
    object_text := .str "Oficinas culturais", value := .str "R$ 1.000,00",
    date := .str "04/11/2025", validity_start := .str "01/11/2025",
    validity_end := .str "31/10/2026", link_pdf := .str "https://diario.example/1.pdf",
    link_html := .str "https://diario.example/1.html" }

/-- A donation record with every field of its layout present. -/
def fullDoacao : Item :=
  { term := .str "Termo de Doação", process_number := .str "6016.2025/0001-1",
    contractor := .str "Maria Silva", object_text := .str "Livros",
    date := .str "04/11/2025", link_pdf := .str "https://diario.example/1.pdf",
    link_html := .str "https://diario.example/1.html" }

/-- A second amendment record, with another amendment number. -/
def aditivoRecord3 : Item :=
  { term := .str "CONTRATO", summary := .str "PREGÃO", amendment_number := .str "3" }

end DiarioScraper

namespace DiarioScraper

theorem includesList_iff (s pat : List Char) : includesList s pat = true ↔ pat <:+: s := by
  induction s with
  | nil => simp [includesList, List.isEmpty_iff]
  | cons c cs ih =>
    simp only [includesList, Bool.or_eq_true, List.isPrefixOf_iff_prefix, ih, List.infix_cons_iff]

theorem includes_iff (s pat : String) : includes s pat = true ↔ pat.data <:+: s.data :=
  includesList_iff s.data pat.data

theorem toUpperCase_append (upper : Char → List Char) (a b : String) :
    toUpperCase upper (a ++ b) = toUpperCase upper a ++ toUpperCase upper b := by
  apply String.ext
  simp [toUpperCase, String.data_append]

theorem includes_append_right (a b pat : String) (h : includes b pat = true) :
    includes (a ++ b) pat = true := by
  rw [includes_iff] at h ⊢
  rw [String.data_append]
  exact h.trans (List.infix_append' a.data b.data [] |> fun h => by simpa using h)

/-! ## The classifier -/

theorem determineType_tipo (upper : Char → List Char) (item : Item) :
    (determineType upper item).tipo = determineTipo item (fullTermOf upper item) := by
  unfold determineType
  simp only []
  split_ifs <;> rfl

theorem determineTipo_noHint (item : Item) (ft : String) (h : NoHint item) :
    determineTipo item ft = classifyByTable item.amendment_number ft := by
  have hcond : (item.doc_type.truthy && item.doc_type != .str "OUTRO") = false := by
    rcases h with h | h | h | h <;> rw [h] <;> decide
  unfold determineTipo
  rw [if_neg (by simp [hcond])]
  simp only [classifyByTable, firstRule, priorityTable, List.find?, Rule.fires, List.any,
    Bool.false_and, Bool.true_and, Bool.false_or, Bool.or_false, Bool.or_assoc]
  generalize includes ft "APOSTILAMENTO" = b1
  generalize (item.amendment_number.truthy || includes ft "ADITAMENTO") = b2
  generalize (includes ft "FOMENTO" || (includes ft "COLABORAÇÃO" || (includes ft "COOPERAÇÃO"
    || includes ft "TERMO DE COLABORAÇÃO"))) = b3
  generalize (includes ft "DOAÇÃO" || includes ft "COMODATO") = b4
  generalize includes ft "EMPENHO" = b5
  generalize (includes ft "ESCLARECIMENTO" || (includes ft "QUESTIONAMENTO"
    || (includes ft "IMPUGNAÇ" || (includes ft "IMPUGNAC"
    || includes ft "DEMONSTRATIVO DAS COMPRAS")))) = b6
  generalize (includes ft "TERMO DE CONTRATO" || includes ft "EXTRATO DE CONTRATO") = b7
  generalize (includes ft "PREGÃO" || (includes ft "LICITAÇÃO" || (includes ft "PREGAO"
    || (includes ft "CONVITE" || includes ft "CONCORRÊNCIA")))) = b8
  generalize includes ft "CONTRATO" = b9
  cases b1 <;> [skip; rfl]
  cases b2 <;> [skip; rfl]
  cases b3 <;> [skip; rfl]
  cases b4 <;> [skip; rfl]
  cases b5 <;> [skip; rfl]
  cases b6 <;> [skip; rfl]
  cases b7 <;> [skip; rfl]
  cases b8 <;> [skip; rfl]
  cases b9 <;> rfl

theorem determineTipo_hint (item : Item) (ft hint : String)
    (hdoc : item.doc_type = .str hint) (hne : hint ≠ "") (hout : hint ≠ "OUTRO") :
    determineTipo item ft = hint := by
  unfold determineTipo
  rw [if_pos (by simp [hdoc, JSValue.truthy, hne, hout])]
  simp [hdoc, JSValue.toStr]

theorem classifyByTable_first (amendment : JSValue) (ft : String) (pre post : List Rule)
    (r : Rule) (hsplit : priorityTable = pre ++ r :: post)
    (hpre : ∀ x ∈ pre, x.fires amendment ft = false) (hr : r.fires amendment ft = true) :
    classifyByTable amendment ft = r.tipo := by
  have hnone : pre.find? (fun x => x.fires amendment ft) = none := by
    rw [List.find?_eq_none]
    intro x hx
    simp [hpre x hx]
  simp [classifyByTable, firstRule, hsplit, List.find?_append, hnone, List.find?_cons, hr]

theorem classifyByTable_none (amendment : JSValue) (ft : String)
    (hall : ∀ x ∈ priorityTable, x.fires amendment ft = false) :
    classifyByTable amendment ft = "OUTRO" := by
  have hnone : priorityTable.find? (fun x => x.fires amendment ft) = none := by
    rw [List.find?_eq_none]
    intro x hx
    simp [hall x hx]
  simp [classifyByTable, firstRule, hnone]

/-- C1: a record whose backend hint `doc_type` is a non-empty string other than
`OUTRO` gets that hint as its tipo, unchanged, whatever `term`, `summary`,
`modality` and `amendment_number` hold and whatever the uppercase table is. -/
theorem determineType_hint_verbatim (upper : Char → List Char) (item : Item) (hint : String)
    (hdoc : item.doc_type = .str hint) (hne : hint ≠ "") (hout : hint ≠ "OUTRO") :
    (determineType upper item).tipo = hint := by
  rw [determineType_tipo]
  exact determineTipo_hint item _ hint hdoc hne hout

theorem determineType_hint_verbatim_witness :
    hintedRecord.doc_type = .str "HOMOLOGACAO" ∧ "HOMOLOGACAO" ≠ "" ∧ "HOMOLOGACAO" ≠ "OUTRO"
      ∧ (determineType upperLatin1 hintedRecord).tipo = "HOMOLOGACAO" :=
  ⟨rfl, by decide, by decide,
    determineType_hint_verbatim upperLatin1 hintedRecord "HOMOLOGACAO" rfl (by decide)
      (by decide)⟩

/-- C2: for a record without hint the tipo is the type of the first row of the
nine-row priority table that matches the haystack (or the amendment number, for the
ADITAMENTO row), and `OUTRO` when no row matches: a row wins as soon as no row before
it matches, whatever the rows after it do. So a haystack with `APOSTILAMENTO` gives
APOSTILAMENTO even when it holds `PREGÃO`, and a haystack with `PREGÃO` on which none
of the seven rows before PREGAO matches gives PREGAO even when it holds `CONTRATO`. -/
theorem determineType_priority_table (upper : Char → List Char) (item : Item)
    (hno : NoHint item) :
    (determineType upper item).tipo
        = classifyByTable item.amendment_number (fullTermOf upper item)
      ∧ (∀ pre r post, priorityTable = pre ++ r :: post →
          (∀ x ∈ pre, x.fires item.amendment_number (fullTermOf upper item) = false) →
          r.fires item.amendment_number (fullTermOf upper item) = true →
          (determineType upper item).tipo = r.tipo)
      ∧ ((∀ x ∈ priorityTable, x.fires item.amendment_number (fullTermOf upper item) = false) →
          (determineType upper item).tipo = "OUTRO")
      ∧ (includes (fullTermOf upper item) "APOSTILAMENTO" = true →
          includes (fullTermOf upper item) "PREGÃO" = true →
          (determineType upper item).tipo = "APOSTILAMENTO")
      ∧ (includes (fullTermOf upper item) "CONTRATO" = true →
          includes (fullTermOf upper item) "PREGÃO" = true →
          (∀ x ∈ priorityTable.take 7,
            x.fires item.amendment_number (fullTermOf upper item) = false) →
          (determineType upper item).tipo = "PREGAO") := by
  have key : (determineType upper item).tipo
      = classifyByTable item.amendment_number (fullTermOf upper item) := by
    rw [determineType_tipo]
    exact determineTipo_noHint item _ hno
  refine ⟨key, ?_, ?_, ?_, ?_⟩
  · intro pre r post hsplit hpre hr
    rw [key]
    exact classifyByTable_first _ _ pre post r hsplit hpre hr
  · intro hall
    rw [key]
    exact classifyByTable_none _ _ hall
  · intro hapo _
    rw [key]
    refine classifyByTable_first _ _ [] (priorityTable.drop 1)
      ⟨"APOSTILAMENTO", false, ["APOSTILAMENTO"]⟩ rfl (by simp) ?_
    simp [Rule.fires, hapo]
  · intro _ hpre hseven
    rw [key]
    refine classifyByTable_first _ _ (priorityTable.take 7) (priorityTable.drop 8)
      ⟨"PREGAO", false, ["PREGÃO", "LICITAÇÃO", "PREGAO", "CONVITE", "CONCORRÊNCIA"]⟩
      rfl hseven ?_
    simp [Rule.fires, hpre]

theorem determineType_priority_table_witness :
    NoHint contratoPregaoRecord
      ∧ (determineType upperLatin1 contratoPregaoRecord).tipo
        = classifyByTable contratoPregaoRecord.amendment_number
            (fullTermOf upperLatin1 contratoPregaoRecord)
      ∧ (determineType upperLatin1 contratoPregaoRecord).tipo = "PREGAO" :=
  ⟨Or.inl rfl, (determineType_priority_table upperLatin1 contratoPregaoRecord (Or.inl rfl)).1,
    (determineType_priority_table upperLatin1 contratoPregaoRecord (Or.inl rfl)).2.2.2.2
      (by decide) (by decide) (by decide)⟩

/-- C3, as stated, fails: the apostille record has a non-empty amendment number and
no hint, and its tipo is APOSTILAMENTO, not ADITAMENTO. -/
theorem amendment_number_not_always_aditamento :
    apostilaRecord.amendment_number = .str "1" ∧ "1" ≠ "" ∧ NoHint apostilaRecord
      ∧ (determineType upperLatin1 apostilaRecord).tipo = "APOSTILAMENTO"
      ∧ (determineType upperLatin1 apostilaRecord).tipo ≠ "ADITAMENTO" := by
  refine ⟨rfl, by decide, Or.inl rfl, by decide, by decide⟩

/-- C3, amended: a record without hint whose `amendment_number` is a non-empty
string is typed ADITAMENTO, whatever its text holds (`CONTRATO`, `PREGÃO`, …), unless
the haystack contains `APOSTILAMENTO`, in which case it is typed APOSTILAMENTO. -/
theorem determineType_amendment_number (upper : Char → List Char) (item : Item) (n : String)
    (hnum : item.amendment_number = .str n) (hne : n ≠ "") (hno : NoHint item) :
    (determineType upper item).tipo
      = if includes (fullTermOf upper item) "APOSTILAMENTO" = true then "APOSTILAMENTO"
        else "ADITAMENTO" := by
  rw [determineType_tipo, determineTipo_noHint item _ hno]
  split_ifs with hapo
  · refine classifyByTable_first _ _ [] (priorityTable.drop 1)
      ⟨"APOSTILAMENTO", false, ["APOSTILAMENTO"]⟩ rfl (by simp) ?_
    simp [Rule.fires, hapo]
  · refine classifyByTable_first _ _ (priorityTable.take 1) (priorityTable.drop 2)
      ⟨"ADITAMENTO", true, ["ADITAMENTO"]⟩ rfl ?_ ?_
    · simp [priorityTable, Rule.fires, hapo]
    · simp [Rule.fires, hnum, JSValue.truthy, hne]

theorem determineType_amendment_number_witness :
    aditivoRecord.amendment_number = .str "2" ∧ "2" ≠ "" ∧ NoHint aditivoRecord
      ∧ (determineType upperLatin1 aditivoRecord).tipo
        = (if includes (fullTermOf upperLatin1 aditivoRecord) "APOSTILAMENTO" = true
            then "APOSTILAMENTO" else "ADITAMENTO") :=
  ⟨rfl, by decide, Or.inl rfl,
    determineType_amendment_number upperLatin1 aditivoRecord "2" rfl (by decide) (Or.inl rfl)⟩

/-- C4: a hint equal to the default `OUTRO` falls through to the text heuristic:
for every record, `determineType` returns the same result with `doc_type = 'OUTRO'` as
with `doc_type` absent (or `null`); and the record
`{doc_type:'OUTRO', term:'CONTRATO Nº 5', contract_number:'5'}` is typed CONTRATO by the
last row of the priority table, the weak `CONTRATO` row. -/
theorem determineType_default_hint_falls_through :
    (∀ (upper : Char → List Char) (item : Item),
        determineType upper { item with doc_type := .str "OUTRO" }
          = determineType upper { item with doc_type := .undefined }
        ∧ determineType upper { item with doc_type := .str "OUTRO" }
          = determineType upper { item with doc_type := .null })
      ∧ (determineType upperLatin1 contratoN5).tipo = "CONTRATO"
      ∧ firstRule contratoN5.amendment_number (fullTermOf upperLatin1 contratoN5)
          = some ⟨"CONTRATO", false, ["CONTRATO"]⟩
      ∧ priorityTable.getLast? = some ⟨"CONTRATO", false, ["CONTRATO"]⟩ := by
  refine ⟨?_, by decide, by decide, by decide⟩
  intro upper item
  constructor <;> rfl

theorem JSValue.orElse_blank (v : JSValue) (d : String)
    (h : v = .undefined ∨ v = .null ∨ v = .str "") : v.orElse d = d := by
  rcases h with h | h | h <;> rw [h] <;> rfl

theorem JSValue.truthy_blank (v : JSValue)
    (h : v = .undefined ∨ v = .null ∨ v = .str "") : v.truthy = false := by
  rcases h with h | h | h <;> rw [h] <;> rfl

/-- C5: `determineType` is a total function, and on a record in which every field
is absent, `null` or the empty string it returns tipo `OUTRO`, visual class `outro`,
the generic icon `fa-file` and the label `OUTRO`, the name of the type (for every
uppercase table that leaves the blank alone). -/
theorem determineType_empty_record (upper : Char → List Char) (item : Item)
    (hsp : upper ' ' = [' '])
    (hblank : ∀ v ∈ item.fields, v = .undefined ∨ v = .null ∨ v = .str "") :
    determineType upper item
      = { tipo := "OUTRO", visualClass := "outro", label := "OUTRO", icon := "fa-file" } := by
  have hterm := JSValue.orElse_blank item.term "" (hblank _ (by simp [Item.fields]))
  have hsum := JSValue.orElse_blank item.summary "" (hblank _ (by simp [Item.fields]))
  have hmod := JSValue.orElse_blank item.modality "" (hblank _ (by simp [Item.fields]))
  have hdoc := JSValue.truthy_blank item.doc_type (hblank _ (by simp [Item.fields]))
  have hnum := JSValue.truthy_blank item.amendment_number (hblank _ (by simp [Item.fields]))
  have hft : fullTermOf upper item = "  " := by
    unfold fullTermOf
    rw [hterm, hsum, hmod]
    show (⟨[' ', ' '].flatMap upper⟩ : String) = "  "
    simp [hsp]
  have htipo : determineTipo item "  " = "OUTRO" := by
    unfold determineTipo
    rw [hdoc, hnum]
    simp only [Bool.false_and, Bool.false_eq_true, if_false]
    decide
  unfold determineType
  simp only [hft, htipo, hterm]
  rw [if_neg (by decide)]
  decide

theorem determineType_empty_record_witness :
    upperLatin1 ' ' = [' ']
      ∧ (∀ v ∈ emptyRecord.fields, v = .undefined ∨ v = .null ∨ v = .str "")
      ∧ determineType upperLatin1 emptyRecord
        = { tipo := "OUTRO", visualClass := "outro", label := "OUTRO", icon := "fa-file" } :=
  ⟨by decide, by decide,
    determineType_empty_record upperLatin1 emptyRecord (by decide) (by decide)⟩

theorem determineTipo_noHint_mem (item : Item) (ft : String) (h : NoHint item) :
    determineTipo item ft ∈ inferredTypes := by
  have hcond : (item.doc_type.truthy && item.doc_type != .str "OUTRO") = false := by
    rcases h with h | h | h | h <;> rw [h] <;> decide
  unfold determineTipo
  rw [if_neg (by simp [hcond])]
  simp only []
  split_ifs <;> decide

/-- C6, as stated, fails: a record with the backend hint `PEDIDO_COMPRA` gets the
tipo `PEDIDO_COMPRA`, which is none of the ten values of the enumeration. -/
theorem tipo_outside_enumeration :
    (determineType upperLatin1 pedidoCompraRecord).tipo = "PEDIDO_COMPRA"
      ∧ (determineType upperLatin1 pedidoCompraRecord).tipo ∉ canonicalTypes := by
  constructor <;> decide

/-- C6, amended: for a record without backend hint the tipo is one of the nine
inferred types APOSTILAMENTO, ADITAMENTO, PARCERIA, DOACAO, EMPENHO, DIVERSOS,
CONTRATO, PREGAO, OUTRO (never HOMOLOGACAO); for a record with a hint the tipo is the
hint itself, so it is one of the ten values of the enumeration exactly when the hint
is. -/
theorem determineType_tipo_enumeration (upper : Char → List Char) (item : Item) :
    (NoHint item → (determineType upper item).tipo ∈ inferredTypes
        ∧ (determineType upper item).tipo ∈ canonicalTypes
        ∧ (determineType upper item).tipo ≠ "HOMOLOGACAO")
      ∧ (∀ hint, item.doc_type = .str hint → hint ≠ "" → hint ≠ "OUTRO" →
          (determineType upper item).tipo = hint
          ∧ ((determineType upper item).tipo ∈ canonicalTypes ↔ hint ∈ canonicalTypes)) := by
  constructor
  · intro hno
    have hmem := determineTipo_noHint_mem item (fullTermOf upper item) hno
    rw [determineType_tipo]
    refine ⟨hmem, ?_, ?_⟩
    · revert hmem
      simp only [inferredTypes, canonicalTypes, List.mem_cons]
      tauto
    · intro heq
      rw [heq] at hmem
      revert hmem
      decide
  · intro hint hdoc hne hout
    have htipo : (determineType upper item).tipo = hint := by
      rw [determineType_tipo]
      exact determineTipo_hint item _ hint hdoc hne hout
    exact ⟨htipo, by rw [htipo]⟩

theorem determineType_tipo_enumeration_witness :
    NoHint contratoPregaoRecord
      ∧ (determineType upperLatin1 contratoPregaoRecord).tipo ∈ inferredTypes
      ∧ pedidoCompraRecord.doc_type = .str "PEDIDO_COMPRA"
      ∧ (determineType upperLatin1 pedidoCompraRecord).tipo = "PEDIDO_COMPRA" :=
  ⟨Or.inl rfl,
    ((determineType_tipo_enumeration upperLatin1 contratoPregaoRecord).1 (Or.inl rfl)).1,
    rfl,
    ((determineType_tipo_enumeration upperLatin1 pedidoCompraRecord).2 "PEDIDO_COMPRA" rfl
      (by decide) (by decide)).1⟩

theorem amendment_label (v : JSValue) :
    (if v.truthy = true then "ADITAMENTO " ++ v.toStr else "ADITAMENTO")
      = (match v with
        | .str n => if n ≠ "" then "ADITAMENTO " ++ n else "ADITAMENTO"
        | _ => "ADITAMENTO") := by
  cases v <;> simp [JSValue.truthy, JSValue.toStr]

theorem default_label (v : JSValue) (tipo : String) :
    (if v.orElse "" ≠ "" then v.orElse "" else tipo)
      = (match v with
        | .str t => if t ≠ "" then t else tipo
        | _ => tipo) := by
  cases v with
  | str t => by_cases h : t = "" <;> simp [JSValue.orElse, h]
  | _ => simp [JSValue.orElse]

theorem determineType_presentation (upper : Char → List Char) (item : Item) :
    ((determineType upper item).visualClass, (determineType upper item).icon,
        (determineType upper item).label)
      = presentationOf (determineType upper item).tipo item.amendment_number item.term := by
  rw [determineType_tipo]
  unfold determineType
  simp only []
  generalize determineTipo item (fullTermOf upper item) = t
  by_cases h1 : t = "ADITAMENTO" ∨ t = "APOSTILAMENTO"
  · simp only [if_pos h1, presentationOf, amendment_label]
    rfl
  rw [if_neg h1]
  have hrow : ∀ visual icon label, presentationTable.lookup t = some (visual, icon, label) →
      presentationOf t item.amendment_number item.term = (visual, "fa-" ++ icon, label) := by
    intro visual icon label hl
    simp only [presentationOf, if_neg h1, hl]
  by_cases h2 : t = "PARCERIA"
  · subst h2
    rw [if_pos rfl, hrow _ _ _ rfl]
    rfl
  rw [if_neg h2]
  by_cases h3 : t = "DOACAO"
  · subst h3
    rw [if_pos rfl, hrow _ _ _ rfl]
    rfl
  rw [if_neg h3]
  by_cases h4 : t = "CONTRATO"
  · subst h4
    rw [if_pos (Or.inl rfl), hrow _ _ _ rfl]
    rfl
  by_cases h5 : t = "EMPENHO"
  · subst h5
    rw [if_pos (Or.inr rfl), hrow _ _ _ rfl]
    rfl
  rw [if_neg (by tauto)]
  by_cases h6 : t = "PREGAO"
  · subst h6
    rw [if_pos rfl, hrow _ _ _ rfl]
    rfl
  rw [if_neg h6]
  by_cases h7 : t = "HOMOLOGACAO"
  · subst h7
    rw [if_pos rfl, hrow _ _ _ rfl]
    rfl
  rw [if_neg h7]
  by_cases h8 : t = "DIVERSOS"
  · subst h8
    rw [if_pos rfl, hrow _ _ _ rfl]
    rfl
  rw [if_neg h8]
  by_cases h9 : t = "PEDIDO_COMPRA"
  · subst h9
    rw [if_pos rfl, hrow _ _ _ rfl]
    rfl
  rw [if_neg h9]
  have hnone : presentationTable.lookup t = none := by
    have e2 : (t == "PARCERIA") = false := by simpa using h2
    have e3 : (t == "DOACAO") = false := by simpa using h3
    have e4 : (t == "CONTRATO") = false := by simpa using h4
    have e5 : (t == "EMPENHO") = false := by simpa using h5
    have e6 : (t == "PREGAO") = false := by simpa using h6
    have e7 : (t == "HOMOLOGACAO") = false := by simpa using h7
    have e8 : (t == "DIVERSOS") = false := by simpa using h8
    have e9 : (t == "PEDIDO_COMPRA") = false := by simpa using h9
    simp only [presentationTable, List.lookup, e2, e3, e4, e5, e6, e7, e8, e9]
  simp only [presentationOf, if_neg h1, hnone, default_label]
  rfl

theorem presentationOf_default (tipo : String) (amendment term : JSValue)
    (hmem : tipo ∉ namedTypes) :
    presentationOf tipo amendment term
      = ("outro", "fa-file",
          match term with
          | .str t => if t ≠ "" then t else tipo
          | _ => tipo) := by
  simp only [namedTypes, presentationTable, List.map, List.cons_append, List.nil_append,
    List.mem_cons, List.mem_nil_iff, or_false, not_or] at hmem
  obtain ⟨g1, g2, h2, h3, h4, h5, h6, h7, h8, h9⟩ := hmem
  have h1 : ¬(tipo = "ADITAMENTO" ∨ tipo = "APOSTILAMENTO") := by tauto
  have hnone : presentationTable.lookup tipo = none := by
    have e2 : (tipo == "PARCERIA") = false := by simpa using h2
    have e3 : (tipo == "DOACAO") = false := by simpa using h3
    have e4 : (tipo == "CONTRATO") = false := by simpa using h4
    have e5 : (tipo == "EMPENHO") = false := by simpa using h5
    have e6 : (tipo == "PREGAO") = false := by simpa using h6
    have e7 : (tipo == "HOMOLOGACAO") = false := by simpa using h7
    have e8 : (tipo == "DIVERSOS") = false := by simpa using h8
    have e9 : (tipo == "PEDIDO_COMPRA") = false := by simpa using h9
    simp only [presentationTable, List.lookup, e2, e3, e4, e5, e6, e7, e8, e9]
  simp only [presentationOf, if_neg h1, hnone]
  rfl

theorem presentationOf_visual_icon (tipo : String) (a1 t1 a2 t2 : JSValue) :
    (presentationOf tipo a1 t1).1 = (presentationOf tipo a2 t2).1
      ∧ (presentationOf tipo a1 t1).2.1 = (presentationOf tipo a2 t2).2.1 := by
  unfold presentationOf
  split_ifs
  · exact ⟨rfl, rfl⟩
  · cases presentationTable.lookup tipo <;> exact ⟨rfl, rfl⟩

theorem amendment_label_orElse (v : JSValue) :
    (match v with
      | .str n => if n ≠ "" then "ADITAMENTO " ++ n else "ADITAMENTO"
      | _ => "ADITAMENTO")
      = (if v.orElse "" ≠ "" then "ADITAMENTO " ++ v.orElse "" else "ADITAMENTO") := by
  cases v with
  | str n => by_cases h : n = "" <;> simp [JSValue.orElse, h]
  | _ => simp [JSValue.orElse]

theorem presentationOf_label (tipo : String) (a1 t1 a2 t2 : JSValue)
    (ha : tipo = "ADITAMENTO" ∨ tipo = "APOSTILAMENTO" → a1.orElse "" = a2.orElse "")
    (ht : tipo ∉ namedTypes → t1.orElse "" = t2.orElse "") :
    (presentationOf tipo a1 t1).2.2 = (presentationOf tipo a2 t2).2.2 := by
  by_cases h1 : tipo = "ADITAMENTO" ∨ tipo = "APOSTILAMENTO"
  · simp only [presentationOf, if_pos h1, amendment_label_orElse, ha h1]
  · rcases hl : presentationTable.lookup tipo with _ | row
    · have hmem : tipo ∉ namedTypes := by
        intro hmem
        simp only [namedTypes, presentationTable, List.map, List.cons_append, List.nil_append,
          List.mem_cons, List.mem_nil_iff, or_false] at hmem
        rcases hmem with h | h | h | h | h | h | h | h | h | h <;> subst h <;>
          first
          | exact h1 (by decide)
          | exact absurd hl (by decide)
      rw [presentationOf_default _ _ _ hmem, presentationOf_default _ _ _ hmem]
      simp only [← default_label, ht hmem]
    · simp only [presentationOf, if_neg h1, hl]

/-- C7: for every record the visual class, the icon and the label returned by
`determineType` are the row of the presentation table selected by its tipo: the
amendment row for ADITAMENTO and APOSTILAMENTO (with the amendment number in the label
when there is one), the eight rows with a fixed label, and the default row (labelled
by the term, or by the tipo when there is no term) for any other tipo; the icons carry
the `fa-` prefix. -/
theorem determineType_presentation_table :
    (∀ (upper : Char → List Char) (item : Item),
        ((determineType upper item).visualClass, (determineType upper item).icon,
            (determineType upper item).label)
          = presentationOf (determineType upper item).tipo item.amendment_number item.term)
      ∧ (∀ n term, presentationOf "ADITAMENTO" (.str n) term
          = ("aditamento", "fa-file-pen", if n ≠ "" then "ADITAMENTO " ++ n else "ADITAMENTO"))
      ∧ (∀ n term, presentationOf "APOSTILAMENTO" (.str n) term
          = ("aditamento", "fa-file-pen", if n ≠ "" then "ADITAMENTO " ++ n else "ADITAMENTO"))
      ∧ (∀ term, presentationOf "ADITAMENTO" .undefined term
            = ("aditamento", "fa-file-pen", "ADITAMENTO")
          ∧ presentationOf "ADITAMENTO" .null term = ("aditamento", "fa-file-pen", "ADITAMENTO")
          ∧ presentationOf "APOSTILAMENTO" .undefined term
            = ("aditamento", "fa-file-pen", "ADITAMENTO")
          ∧ presentationOf "APOSTILAMENTO" .null term
            = ("aditamento", "fa-file-pen", "ADITAMENTO"))
      ∧ (∀ amendment term,
          presentationOf "PARCERIA" amendment term = ("parceria", "fa-handshake", "PARCERIA")
          ∧ presentationOf "DOACAO" amendment term = ("doacao", "fa-gift", "DOAÇÃO")
          ∧ presentationOf "CONTRATO" amendment term
            = ("contrato", "fa-file-signature", "CONTRATO")
          ∧ presentationOf "EMPENHO" amendment term
            = ("contrato", "fa-file-signature", "EMPENHO")
          ∧ presentationOf "PREGAO" amendment term = ("pregao", "fa-gavel", "LICITAÇÃO")
          ∧ presentationOf "HOMOLOGACAO" amendment term
            = ("destaque", "fa-award", "HOMOLOGAÇÃO")
          ∧ presentationOf "DIVERSOS" amendment term = ("diversos", "fa-paperclip", "DIVERSOS")
          ∧ presentationOf "PEDIDO_COMPRA" amendment term
            = ("compra", "fa-cart-shopping", "PEDIDO COMPRA"))
      ∧ (∀ tipo amendment t, tipo ∉ namedTypes →
          presentationOf tipo amendment (.str t)
            = ("outro", "fa-file", if t ≠ "" then t else tipo)
          ∧ presentationOf tipo amendment .undefined = ("outro", "fa-file", tipo)
          ∧ presentationOf tipo amendment .null = ("outro", "fa-file", tipo)) := by
  refine ⟨determineType_presentation, fun _ _ => rfl, fun _ _ => rfl,
    fun _ => ⟨rfl, rfl, rfl, rfl⟩, fun _ _ => ⟨rfl, rfl, rfl, rfl, rfl, rfl, rfl, rfl⟩, ?_⟩
  intro tipo amendment t hmem
  refine ⟨?_, ?_, ?_⟩ <;> rw [presentationOf_default _ _ _ hmem]

theorem determineType_presentation_table_witness :
    "FOO" ∉ namedTypes
      ∧ presentationOf "FOO" .undefined (.str "Aviso")
        = ("outro", "fa-file", if "Aviso" ≠ "" then "Aviso" else "FOO") :=
  ⟨by decide,
    (determineType_presentation_table.2.2.2.2.2 "FOO" .undefined "Aviso" (by decide)).1⟩

/-- C8, as stated, fails: two records typed OUTRO get different labels (their
terms), and two records typed ADITAMENTO that both carry an amendment number get
different labels (the numbers differ). -/
theorem label_not_determined_by_tipo :
    ((determineType upperLatin1 avisoRecord).tipo = "OUTRO"
        ∧ (determineType upperLatin1 comunicadoRecord).tipo = "OUTRO"
        ∧ (determineType upperLatin1 avisoRecord).label
          ≠ (determineType upperLatin1 comunicadoRecord).label)
      ∧ ((determineType upperLatin1 aditivoRecord).tipo = "ADITAMENTO"
        ∧ (determineType upperLatin1 aditivoRecord3).tipo = "ADITAMENTO"
        ∧ aditivoRecord.amendment_number.truthy = true
        ∧ aditivoRecord3.amendment_number.truthy = true
        ∧ (determineType upperLatin1 aditivoRecord).label
          ≠ (determineType upperLatin1 aditivoRecord3).label) := by
  decide

/-- C8, amended: for any two records to which `determineType` assigns the same tipo,
the visual class and the icon are the same; the label is the same as well provided
that, when the tipo is ADITAMENTO or APOSTILAMENTO, the two records carry the same
amendment number (an absent one counting as empty) and, when the tipo has no row of
its own in the presentation table (OUTRO or an unmatched hint), the two records carry
the same term (an absent one counting as empty). -/
theorem presentation_determined_by_tipo (upper : Char → List Char) (a b : Item)
    (htipo : (determineType upper a).tipo = (determineType upper b).tipo) :
    (determineType upper a).visualClass = (determineType upper b).visualClass
      ∧ (determineType upper a).icon = (determineType upper b).icon
      ∧ (((determineType upper a).tipo = "ADITAMENTO"
            ∨ (determineType upper a).tipo = "APOSTILAMENTO" →
            a.amendment_number.orElse "" = b.amendment_number.orElse "") →
          ((determineType upper a).tipo ∉ namedTypes → a.term.orElse "" = b.term.orElse "") →
          (determineType upper a).label = (determineType upper b).label) := by
  have ha := determineType_presentation upper a
  have hb := determineType_presentation upper b
  rw [← htipo] at hb
  have hvi := presentationOf_visual_icon (determineType upper a).tipo
    a.amendment_number a.term b.amendment_number b.term
  have e1 := congrArg Prod.fst ha
  have e2 := congrArg Prod.fst hb
  have e3 := congrArg (fun p => p.2.1) ha
  have e4 := congrArg (fun p => p.2.1) hb
  have e5 := congrArg (fun p => p.2.2) ha
  have e6 := congrArg (fun p => p.2.2) hb
  simp only [] at e1 e2 e3 e4 e5 e6
  refine ⟨by rw [e1, e2, hvi.1], by rw [e3, e4, hvi.2], ?_⟩
  intro hnum hterm
  rw [e5, e6]
  exact presentationOf_label _ _ _ _ _ hnum hterm

theorem presentation_determined_by_tipo_witness :
    (determineType upperLatin1 aditivoRecord).tipo
        = (determineType upperLatin1 aditivoRecordB).tipo
      ∧ (determineType upperLatin1 aditivoRecord).visualClass
        = (determineType upperLatin1 aditivoRecordB).visualClass
      ∧ (determineType upperLatin1 aditivoRecord).icon
        = (determineType upperLatin1 aditivoRecordB).icon
      ∧ (determineType upperLatin1 aditivoRecord).label
        = (determineType upperLatin1 aditivoRecordB).label :=
  ⟨by decide,
    (presentation_determined_by_tipo upperLatin1 aditivoRecord aditivoRecordB (by decide)).1,
    (presentation_determined_by_tipo upperLatin1 aditivoRecord aditivoRecordB (by decide)).2.1,
    (presentation_determined_by_tipo upperLatin1 aditivoRecord aditivoRecordB (by decide)).2.2
      (fun _ => by decide) (fun h => absurd (by decide) h)⟩

/-! ## The statistics panel -/

theorem JSValue.orElse_empty (v : JSValue) : v.orElse "" = v.text := by
  cases v with
  | str s => by_cases h : s = "" <;> simp [JSValue.orElse, JSValue.text, h]
  | _ => rfl

theorem statsText_eq (upper : Char → List Char) (r : Item) :
    statsText upper r = toUpperCase upper (r.term.text ++ r.summary.text) := by
  simp only [statsText, JSValue.orElse_empty]

theorem countRecord_bucket (upper : Char → List Char) (c : Counters) (r : Item) :
    countRecord upper c r
      = match bucketOf upper r with
        | .contratos => { c with contratos := c.contratos + 1 }
        | .pregoes => { c with pregoes := c.pregoes + 1 }
        | .aditamentos => { c with aditamentos := c.aditamentos + 1 }
        | .outros => { c with outros := c.outros + 1 } := by
  simp only [countRecord, bucketOf, bucketTable, List.find?, statsText_eq]
  generalize includes (toUpperCase upper (r.term.text ++ r.summary.text)) "CONTRATO" = b1
  generalize includes (toUpperCase upper (r.term.text ++ r.summary.text)) "PREGÃO" = b2
  generalize includes (toUpperCase upper (r.term.text ++ r.summary.text)) "PREGAO" = b3
  generalize includes (toUpperCase upper (r.term.text ++ r.summary.text)) "ADITAMENTO" = b4
  cases b1 <;> cases b2 <;> cases b3 <;> cases b4 <;> rfl

theorem foldl_countRecord (upper : Char → List Char) (results : List Item) (c : Counters) :
    results.foldl (countRecord upper) c
      = { contratos := c.contratos + results.countP (fun r => bucketOf upper r = .contratos),
          pregoes := c.pregoes + results.countP (fun r => bucketOf upper r = .pregoes),
          aditamentos :=
            c.aditamentos + results.countP (fun r => bucketOf upper r = .aditamentos),
          outros := c.outros + results.countP (fun r => bucketOf upper r = .outros) } := by
  induction results generalizing c with
  | nil => simp
  | cons r rs ih =>
    rw [List.foldl_cons, ih, countRecord_bucket]
    cases hb : bucketOf upper r <;> simp [List.countP_cons, hb] <;> omega

theorem countRecords_eq (upper : Char → List Char) (results : List Item) :
    countRecords upper results
      = { contratos := results.countP (fun r => bucketOf upper r = .contratos),
          pregoes := results.countP (fun r => bucketOf upper r = .pregoes),
          aditamentos := results.countP (fun r => bucketOf upper r = .aditamentos),
          outros := results.countP (fun r => bucketOf upper r = .outros) } := by
  simp [countRecords, foldl_countRecord]

theorem bucket_counts_sum (upper : Char → List Char) (results : List Item) :
    results.countP (fun r => bucketOf upper r = .contratos)
      + results.countP (fun r => bucketOf upper r = .pregoes)
      + results.countP (fun r => bucketOf upper r = .aditamentos)
      + results.countP (fun r => bucketOf upper r = .outros) = results.length := by
  induction results with
  | nil => simp
  | cons r rs ih =>
    cases hb : bucketOf upper r <;> simp [List.countP_cons, hb] <;> omega

theorem updateStats_nonempty (upper : Char → List Char) (results : List Item) (box : StatsBox)
    (hne : results ≠ []) :
    updateStats upper results box
      = { hidden := false, content := some (referenceStats upper results) } := by
  have hlen : ¬ results.length = 0 := by
    simpa [List.length_eq_zero] using hne
  simp only [updateStats, if_neg hlen, countRecords_eq, referenceStats]

theorem bucketOf_contratos (upper : Char → List Char) (item : Item)
    (hsum : includes (toUpperCase upper (item.summary.orElse "")) "CONTRATO" = true) :
    bucketOf upper item = .contratos := by
  have htext : includes (toUpperCase upper (item.term.text ++ item.summary.text)) "CONTRATO"
      = true := by
    rw [toUpperCase_append]
    rw [JSValue.orElse_empty] at hsum
    exact includes_append_right _ _ _ hsum
  simp [bucketOf, bucketTable, List.find?, htext]

/-- C9, as stated, fails on the empty sequence: `updateStats([])` hides the
statistics box and returns before any counter exists, so a box that showed the counts
of an earlier search still holds them, not zeros, and a box never written holds
nothing. -/
theorem updateStats_empty_not_zeros :
    (updateStats upperLatin1 [] shownBox).hidden = true
      ∧ (updateStats upperLatin1 [] shownBox).content = some ⟨1, 0, 0, 0, 1⟩
      ∧ (updateStats upperLatin1 [] shownBox).content ≠ some ⟨0, 0, 0, 0, 0⟩
      ∧ (updateStats upperLatin1 [] ⟨true, none⟩).content = none := by
  decide

/-- C9, amended: for every non-empty sequence of records the statistics written by
`updateStats` are the reference bucketing (every record counted once, by the first
match over the uppercased `term` directly followed by `summary`, in the order
`CONTRATO`, `PREGÃO` or `PREGAO`, `ADITAMENTO`, otherwise outros), the total is the
length of the sequence and the four buckets add up to it; for the empty sequence
`updateStats` writes no statistics: it only hides the statistics box. -/
theorem updateStats_reference_bucketing (upper : Char → List Char) (results : List Item)
    (box : StatsBox) :
    (results ≠ [] →
        updateStats upper results box
          = { hidden := false, content := some (referenceStats upper results) }
        ∧ (referenceStats upper results).total = results.length
        ∧ (referenceStats upper results).contratos + (referenceStats upper results).pregoes
            + (referenceStats upper results).aditamentos
            + (referenceStats upper results).outros = results.length)
      ∧ (results = [] → updateStats upper results box = { box with hidden := true }) := by
  constructor
  · intro hne
    exact ⟨updateStats_nonempty upper results box hne, rfl, bucket_counts_sum upper results⟩
  · intro hnil
    subst hnil
    rfl

theorem updateStats_reference_bucketing_witness :
    sampleResults ≠ []
      ∧ updateStats upperLatin1 sampleResults shownBox
        = { hidden := false, content := some ⟨2, 1, 1, 1, 5⟩ } :=
  ⟨by decide,
    ((updateStats_reference_bucketing upperLatin1 sampleResults shownBox).1 (by decide)).1.trans
      (by decide)⟩

/-- C10: a record that `determineType` types ADITAMENTO (visual class `aditamento`)
and whose uppercased summary contains `CONTRATO` is counted by `updateStats` in the
contratos bucket and not in the aditamentos bucket: wherever it stands in the result
set, it adds one to contratos and to the total and nothing to the other buckets. -/
theorem aditamento_counted_as_contrato (upper : Char → List Char) (item : Item)
    (htipo : (determineType upper item).tipo = "ADITAMENTO")
    (hsum : includes (toUpperCase upper (item.summary.orElse "")) "CONTRATO" = true) :
    (determineType upper item).visualClass = "aditamento"
      ∧ (∀ c, countRecord upper c item = { c with contratos := c.contratos + 1 })
      ∧ (∀ pre post box,
          updateStats upper (pre ++ item :: post) box
            = { hidden := false,
                content := some
                  { contratos := (countRecords upper (pre ++ post)).contratos + 1,
                    pregoes := (countRecords upper (pre ++ post)).pregoes,
                    aditamentos := (countRecords upper (pre ++ post)).aditamentos,
                    outros := (countRecords upper (pre ++ post)).outros,
                    total := (pre ++ post).length + 1 } }) := by
  have hb := bucketOf_contratos upper item hsum
  refine ⟨?_, ?_, ?_⟩
  · have h := congrArg Prod.fst (determineType_presentation upper item)
    rw [htipo] at h
    exact h
  · intro c
    rw [countRecord_bucket, hb]
  · intro pre post box
    rw [updateStats_nonempty upper _ box (by simp)]
    simp [referenceStats, countRecords_eq, List.countP_append, List.countP_cons, hb]
    omega

theorem aditamento_counted_as_contrato_witness :
    (determineType upperLatin1 aditivoDeContrato).tipo = "ADITAMENTO"
      ∧ includes (toUpperCase upperLatin1 (aditivoDeContrato.summary.orElse "")) "CONTRATO" = true
      ∧ (determineType upperLatin1 aditivoDeContrato).visualClass = "aditamento"
      ∧ countRecord upperLatin1 ⟨0, 0, 0, 0⟩ aditivoDeContrato = ⟨1, 0, 0, 0⟩ :=
  ⟨by decide, by decide,
    (aditamento_counted_as_contrato upperLatin1 aditivoDeContrato (by decide) (by decide)).1,
    (aditamento_counted_as_contrato upperLatin1 aditivoDeContrato (by decide) (by decide)).2.1
      ⟨0, 0, 0, 0⟩⟩

/-! ## The CSV export -/

theorem undoubleQuotes_cons (c : Char) (l : List Char) (hc : c ≠ '"') :
    undoubleQuotes (c :: l) = c :: undoubleQuotes l := by
  cases l with
  | nil => rfl
  | cons d rest => simp [undoubleQuotes, hc]

theorem undoubleQuotes_double (l : List Char) :
    undoubleQuotes (l.flatMap (fun c => if c = '"' then ['"', '"'] else [c])) = l := by
  induction l with
  | nil => rfl
  | cons c cs ih =>
    by_cases hc : c = '"'
    · subst hc
      show undoubleQuotes ('"' :: '"'
        :: cs.flatMap (fun c => if c = '"' then ['"', '"'] else [c])) = '"' :: cs
      simp only [undoubleQuotes, and_self, if_true, ih]
    · simp only [List.flatMap_cons, if_neg hc, List.singleton_append]
      rw [undoubleQuotes_cons _ _ hc, ih]

theorem unquoteCell_quotedCell (text : String) : unquoteCell (quotedCell text) = text := by
  have hdata : (quotedCell text).data
      = '"' :: ((doubleQuotes text).data ++ ['"']) := by
    simp [quotedCell, String.data_append]
  unfold unquoteCell
  rw [hdata, List.tail_cons, List.dropLast_concat]
  simp only [doubleQuotes, undoubleQuotes_double]

/-- C16: for every record whose `object_text` is a string, the Objeto cell (the
third cell) of its CSV row is `object_text` with every double quote doubled, between
one pair of double quotes, and reading the cell back (outer quotes removed, doubled
quotes undone) gives `object_text` again; the text `Aquisição de "bens"` gives the
cell `"Aquisição de ""bens"""`. -/
theorem exportCSV_objeto_cell :
    (∀ (row : Item) (text : String), row.object_text = .str text →
        ∃ cells, csvCells row = some cells
          ∧ cells.get? 2 = some (.str ("\"" ++ doubleQuotes text ++ "\""))
          ∧ (doubleQuotes text).data
            = text.data.flatMap (fun c => if c = '"' then ['"', '"'] else [c])
          ∧ unquoteCell ("\"" ++ doubleQuotes text ++ "\"") = text)
      ∧ (∃ cells, csvCells bensRecord = some cells
          ∧ cells.get? 2 = some (.str "\"Aquisição de \"\"bens\"\"\""))
      ∧ exportCSV [bensRecord]
        = .csv ("Data,Termo,Objeto,Valor,Processo,Contratada,Link PDF\n"
            ++ "04/11/2025,\"Contrato\",\"Aquisição de \"\"bens\"\"\",\"R$ 10,00\","
            ++ "6016.2025/0001-1,\"ACME LTDA\",https://diario.example/1.pdf\n") := by
  refine ⟨?_, ⟨_, rfl, by decide⟩, rfl⟩
  intro row text hrow
  refine ⟨[ row.date, .str ("\"" ++ row.term.toStr ++ "\""),
      .str ("\"" ++ doubleQuotes text ++ "\""), .str ("\"" ++ row.value.toStr ++ "\""),
      row.process_number, .str ("\"" ++ row.contractor.toStr ++ "\""), row.link_pdf ],
    by rw [csvCells, hrow], rfl, rfl, unquoteCell_quotedCell text⟩

theorem exportCSV_objeto_cell_witness :
    bensRecord.object_text = .str "Aquisição de \"bens\""
      ∧ ∃ cells, csvCells bensRecord = some cells
          ∧ cells.get? 2 = some (.str ("\"" ++ doubleQuotes "Aquisição de \"bens\"" ++ "\""))
          ∧ (doubleQuotes "Aquisição de \"bens\"").data
            = "Aquisição de \"bens\"".data.flatMap (fun c => if c = '"' then ['"', '"'] else [c])
          ∧ unquoteCell ("\"" ++ doubleQuotes "Aquisição de \"bens\"" ++ "\"")
            = "Aquisição de \"bens\"" :=
  ⟨rfl, exportCSV_objeto_cell.1 bensRecord "Aquisição de \"bens\"" rfl⟩

/-- C17, on the code: the Termo, Valor and Contratada cells of a row are the field
between double quotes with its internal double quotes left single; only the Objeto
cell doubles them. -/
theorem exportCSV_text_cells_not_doubled :
    csvCells quotedTermRecord
        = some [ .str "04/11/2025", .str "\"Pregão \"A\"\"", .str "\"Papel\"",
            .str "\"R$ \"10\"\"", .str "6016.2025/0001-1", .str "\"ACME \"Sul\" LTDA\"",
            .str "https://diario.example/1.pdf" ]
      ∧ "\"Pregão \"A\"\"" ≠ quotedCell "Pregão \"A\""
      ∧ "\"R$ \"10\"\"" ≠ quotedCell "R$ \"10\""
      ∧ "\"ACME \"Sul\" LTDA\"" ≠ quotedCell "ACME \"Sul\" LTDA"
      ∧ quotedCell "Pregão \"A\"" = "\"Pregão \"\"A\"\"\"" := by
  decide

/-- C18, on the code: a result set with a record that has no `object_text` makes
`exportCSV` raise a `TypeError`; no header and no row are produced, also for the
records before and after it. -/
theorem exportCSV_raises_without_object_text :
    exportCSV [noObjectRecord] = .typeError
      ∧ exportCSV [bensRecord, noObjectRecord, bensRecord] = .typeError
      ∧ csvCells noObjectRecord = none := by
  decide

/-! ## Case folding -/

theorem flatMap_fixed (upper : Char → List Char) (l : List Char)
    (h : ∀ d ∈ l, upper d = [d]) : l.flatMap upper = l := by
  induction l with
  | nil => rfl
  | cons d ds ih =>
    rw [List.flatMap_cons, h d (List.mem_cons_self d ds),
      ih (fun e he => h e (List.mem_cons_of_mem d he))]
    rfl

theorem toUpperCase_idem (upper : Char → List Char)
    (hidem : ∀ c, ∀ d ∈ upper c, upper d = [d]) (s : String) :
    toUpperCase upper (toUpperCase upper s) = toUpperCase upper s := by
  apply String.ext
  show (s.data.flatMap upper).flatMap upper = s.data.flatMap upper
  apply flatMap_fixed
  intro d hd
  obtain ⟨c, _, hc⟩ := List.mem_flatMap.mp hd
  exact hidem c d hc

theorem JSValue.orElse_upcase (upper : Char → List Char) (v : JSValue) :
    (v.upcase upper).orElse "" = toUpperCase upper (v.orElse "") := by
  cases v with
  | str s =>
    by_cases hs : s = ""
    · subst hs
      rfl
    · by_cases hu : toUpperCase upper s = "" <;> simp [JSValue.upcase, JSValue.orElse, hs, hu]
  | _ => rfl

theorem fullTermOf_uppercased (upper : Char → List Char)
    (hidem : ∀ c, ∀ d ∈ upper c, upper d = [d]) (item : Item) :
    fullTermOf upper (item.uppercased upper) = fullTermOf upper item := by
  show toUpperCase upper ((item.term.upcase upper).orElse "" ++ " "
      ++ (item.summary.upcase upper).orElse "" ++ " " ++ (item.modality.upcase upper).orElse "")
    = toUpperCase upper
        (item.term.orElse "" ++ " " ++ item.summary.orElse "" ++ " " ++ item.modality.orElse "")
  simp only [JSValue.orElse_upcase, toUpperCase_append, toUpperCase_idem upper hidem]

set_option maxRecDepth 100000 in
theorem upperLatin1_low : ∀ n, n < 256 →
    ∀ d ∈ upperLatin1 (Char.ofNat n), upperLatin1 d = [d] := by
  decide

theorem upperLatin1_idem : ∀ c, ∀ d ∈ upperLatin1 c, upperLatin1 d = [d] := by
  intro c d hd
  by_cases hc : c.toNat < 256
  · exact upperLatin1_low c.toNat hc d (by rwa [Char.ofNat_toNat])
  · have hself : upperLatin1 c = [c] := by
      unfold upperLatin1
      simp only []
      rw [if_neg (by omega), if_neg (by omega), if_neg (by omega), if_neg (by omega),
        if_neg (by omega)]
    rw [hself, List.mem_singleton] at hd
    rw [hd, hself]

theorem determineType_uppercased (upper : Char → List Char)
    (hidem : ∀ c, ∀ d ∈ upper c, upper d = [d]) (item : Item) :
    (determineType upper (item.uppercased upper)).tipo = (determineType upper item).tipo
      ∧ (determineType upper (item.uppercased upper)).visualClass
        = (determineType upper item).visualClass
      ∧ (determineType upper (item.uppercased upper)).icon = (determineType upper item).icon := by
  have htipo : (determineType upper (item.uppercased upper)).tipo
      = (determineType upper item).tipo := by
    rw [determineType_tipo, determineType_tipo, fullTermOf_uppercased upper hidem]
    rfl
  have ha := determineType_presentation upper (item.uppercased upper)
  have hb := determineType_presentation upper item
  rw [htipo] at ha
  have hvi := presentationOf_visual_icon (determineType upper item).tipo
    (item.uppercased upper).amendment_number (item.uppercased upper).term
    item.amendment_number item.term
  have e1 := congrArg Prod.fst ha
  have e2 := congrArg Prod.fst hb
  have e3 := congrArg (fun p => p.2.1) ha
  have e4 := congrArg (fun p => p.2.1) hb
  simp only [] at e1 e2 e3 e4
  exact ⟨htipo, by rw [e1, e2, hvi.1], by rw [e3, e4, hvi.2]⟩

/-- C19: keyword matching ignores case and keeps diacritics. For every uppercase
table under which an uppercased text is its own uppercase form, and every record
(with no hint, or with one), `determineType` returns the same tipo, visual class and
icon when `term`, `summary` and `modality` are replaced by their uppercase forms; so
the term `pregão eletrônico` is typed PREGAO like `PREGÃO ELETRÔNICO`. A keyword
without its diacritics does not match: a record whose only text is the term `DOACAO`
is typed OUTRO, while `doação` is typed DOACAO. -/
theorem determineType_case_insensitive :
    (∀ (upper : Char → List Char), (∀ c, ∀ d ∈ upper c, upper d = [d]) →
        ∀ item : Item,
          (determineType upper (item.uppercased upper)).tipo = (determineType upper item).tipo
          ∧ (determineType upper (item.uppercased upper)).visualClass
            = (determineType upper item).visualClass
          ∧ (determineType upper (item.uppercased upper)).icon
            = (determineType upper item).icon)
      ∧ pregaoLowerRecord.uppercased upperLatin1 = pregaoUpperRecord
      ∧ (determineType upperLatin1 pregaoLowerRecord).tipo = "PREGAO"
      ∧ (determineType upperLatin1 pregaoUpperRecord).tipo = "PREGAO"
      ∧ (determineType upperLatin1 doacaoPlainRecord).tipo = "OUTRO"
      ∧ (determineType upperLatin1 doacaoPlainRecord).tipo ≠ "DOACAO"
      ∧ (determineType upperLatin1 doacaoRecord).tipo = "DOACAO" := by
  refine ⟨fun upper hidem item => determineType_uppercased upper hidem item,
    by decide, by decide, by decide, by decide, by decide, by decide⟩

theorem determineType_case_insensitive_witness :
    (∀ c, ∀ d ∈ upperLatin1 c, upperLatin1 d = [d])
      ∧ NoHint pregaoLowerRecord
      ∧ (determineType upperLatin1 (pregaoLowerRecord.uppercased upperLatin1)).tipo
        = (determineType upperLatin1 pregaoLowerRecord).tipo
      ∧ (determineType upperLatin1 (pregaoLowerRecord.uppercased upperLatin1)).visualClass
        = (determineType upperLatin1 pregaoLowerRecord).visualClass
      ∧ (determineType upperLatin1 (pregaoLowerRecord.uppercased upperLatin1)).icon
        = (determineType upperLatin1 pregaoLowerRecord).icon :=
  ⟨upperLatin1_idem, Or.inl rfl,
    determineType_case_insensitive.1 upperLatin1 upperLatin1_idem pregaoLowerRecord⟩

/-! ## The buckets of the statistics panel -/

/-- C20: the four buckets partition the result set. For every non-empty sequence of
records the numbers written by `updateStats` satisfy contratos + pregoes + aditamentos
+ outros = total = the number of records, and appending one record raises the total
and exactly one bucket by one and leaves the other three buckets as they were. -/
theorem updateStats_buckets_partition (upper : Char → List Char) (results : List Item)
    (box : StatsBox) (hne : results ≠ []) :
    ∃ s, (updateStats upper results box).content = some s
      ∧ s.contratos + s.pregoes + s.aditamentos + s.outros = s.total
      ∧ s.total = results.length
      ∧ ∀ (r : Item) (box1 : StatsBox),
          ∃ t, (updateStats upper (results ++ [r]) box1).content = some t
            ∧ t.total = s.total + 1
            ∧ ((t.contratos = s.contratos + 1 ∧ t.pregoes = s.pregoes
                  ∧ t.aditamentos = s.aditamentos ∧ t.outros = s.outros)
              ∨ (t.contratos = s.contratos ∧ t.pregoes = s.pregoes + 1
                  ∧ t.aditamentos = s.aditamentos ∧ t.outros = s.outros)
              ∨ (t.contratos = s.contratos ∧ t.pregoes = s.pregoes
                  ∧ t.aditamentos = s.aditamentos + 1 ∧ t.outros = s.outros)
              ∨ (t.contratos = s.contratos ∧ t.pregoes = s.pregoes
                  ∧ t.aditamentos = s.aditamentos ∧ t.outros = s.outros + 1)) := by
  refine ⟨referenceStats upper results, ?_, bucket_counts_sum upper results, rfl, ?_⟩
  · rw [updateStats_nonempty upper results box hne]
  · intro r box1
    refine ⟨referenceStats upper (results ++ [r]), ?_, ?_, ?_⟩
    · rw [updateStats_nonempty upper _ box1 (by simp)]
    · simp [referenceStats]
    · cases hb : bucketOf upper r <;>
        simp [referenceStats, List.countP_append, List.countP_cons, hb]

theorem updateStats_buckets_partition_witness :
    sampleResults ≠ []
      ∧ ∃ s, (updateStats upperLatin1 sampleResults shownBox).content = some s
        ∧ s.contratos + s.pregoes + s.aditamentos + s.outros = s.total
        ∧ s.total = sampleResults.length :=
  ⟨by decide,
    (updateStats_buckets_partition upperLatin1 sampleResults shownBox (by decide)).imp
      (fun _ h => ⟨h.1, h.2.1, h.2.2.1⟩)⟩

/-! ## The text view -/

theorem JSValue.present_str (v : JSValue) (h : v.present = true) :
    ∃ s, v = .str s ∧ s ≠ "" ∧ s ≠ "-" := by
  cases v with
  | str s =>
    simp only [JSValue.present, Bool.and_eq_true, decide_eq_true_eq] at h
    exact ⟨s, rfl, h.1, h.2⟩
  | undefined => exact absurd h (by decide)
  | null => exact absurd h (by decide)

theorem JSValue.source_present (v : JSValue) :
    (v.truthy && v != .str "-") = v.present := by
  cases v with
  | str s =>
    by_cases h1 : s = "" <;> by_cases h2 : s = "-" <;>
      simp [JSValue.truthy, JSValue.present, h1, h2]
  | undefined => rfl
  | null => rfl

theorem JSValue.orElse_present (v : JSValue) :
    (v.orElse "" ≠ "" ∧ v.orElse "" ≠ "-") ↔ v.present = true := by
  cases v with
  | str s =>
    by_cases h1 : s = "" <;> by_cases h2 : s = "-" <;>
      simp [JSValue.orElse, JSValue.present, h1, h2]
  | undefined => decide
  | null => decide

theorem JSValue.toStr_present (v : JSValue) (h : v.present = true) : v.toStr = v.text := by
  obtain ⟨s, hs, _, _⟩ := v.present_str h
  rw [hs]
  rfl

theorem companyDocSuffix_eq (item : Item) :
    companyDocSuffix item
      = if item.company_doc.present = true then ", " ++ item.company_doc.text else "" := by
  unfold companyDocSuffix
  rw [JSValue.source_present]
  split_ifs with h
  · rw [JSValue.toStr_present _ h]
  · rfl

theorem renderLayout_amendment (tipo visualClass : String) (item : Item)
    (h : tipo = "ADITAMENTO" ∨ tipo = "APOSTILAMENTO") :
    renderLayout tipo visualClass item
      = [ itemOpen visualClass, processLink item,
          amendmentLine (if tipo = "APOSTILAMENTO" then "Apostilamento" else "Aditamento") item,
          P "Contratada:" (item.contractor.orElse "-" ++ " "
            ++ (if item.company_doc.present = true then ", " ++ item.company_doc.text else "")) ]
        ++ (if item.modality.present = true then [P "Modalidade:" item.modality.text] else [])
        ++ [ P "Objeto:" (item.object_text.orElse "-"),
             P "Data da Assinatura:" (item.validity_start.orElse "-"),
             P "Data da Publicação:" item.date.toStr ]
        ++ (if item.validity_end.present = true then
              [P "Vigência:" (item.validity_start.toStr ++ " e " ++ item.validity_end.text)]
            else [])
        ++ [ P "Valor:" (item.value.orElse "Sem efeito financeiros"), "</div>" ] := by
  unfold renderLayout
  simp only [if_pos h, JSValue.source_present, companyDocSuffix_eq, JSValue.orElse_present]
  by_cases hm : item.modality.present = true
  · by_cases he : item.validity_end.present = true
    · simp only [hm, he, if_true, JSValue.orElse_empty, JSValue.toStr_present _ he]
      rfl
    · simp only [hm, he, if_true, if_false, JSValue.orElse_empty]
      rfl
  · by_cases he : item.validity_end.present = true
    · simp only [hm, he, if_true, if_false, JSValue.toStr_present _ he]
      rfl
    · simp only [hm, he, if_false]
      rfl

theorem determineType_visualClass_of_tipo (upper : Char → List Char) (item : Item)
    (tipo : String) (h : (determineType upper item).tipo = tipo) :
    (determineType upper item).visualClass
      = (presentationOf tipo item.amendment_number item.term).1 := by
  have hp := congrArg Prod.fst (determineType_presentation upper item)
  rw [h] at hp
  exact hp

theorem renderItem_amendment (upper : Char → List Char) (item : Item)
    (h : (determineType upper item).tipo = "ADITAMENTO"
      ∨ (determineType upper item).tipo = "APOSTILAMENTO") :
    renderItem upper item
      = renderLayout (determineType upper item).tipo "aditamento" item := by
  have hv : (determineType upper item).visualClass = "aditamento" := by
    rcases h with h | h <;> rw [determineType_visualClass_of_tipo upper item _ h] <;> rfl
  unfold renderItem
  simp only [hv]

/-- C13: for every record typed ADITAMENTO or APOSTILAMENTO the item block holds, in
this order: the process link; the line `Aditamento nº` or `Apostilamento nº` with the
amendment number (or `S/N`) and `ao Contrato nº` with the parent contract (or `S/N`);
Contratada, with `, company_doc` appended exactly when `company_doc` is present and not
`-`; Modalidade exactly when `modality` is present and not `-`; Objeto; Data da
Assinatura; Data da Publicação; a Vigência line exactly when `validity_end` is present
and not `-`; and Valor, which shows `value`, or `Sem efeito financeiros` when `value` is
absent or empty. The record `{term:'ADITAMENTO', summary:'', modality:'-',
amendment_number:'2', parent_contract:'15', value:null}` is typed ADITAMENTO, labelled
`ADITAMENTO 2`, has no Modalidade line and its Valor line shows
`Sem efeito financeiros`. -/
theorem renderTextView_amendment_layout :
    (∀ (upper : Char → List Char) (item : Item),
        (determineType upper item).tipo = "ADITAMENTO"
          ∨ (determineType upper item).tipo = "APOSTILAMENTO" →
        renderItem upper item
          = [ "<div class=\"text-item type-aditamento\">",
              "<p><strong>• Processo SEI: </strong> <a href=\"" ++ item.link_html.toStr
                ++ "\" target=\"_blank\" style=\"color:blue;text-decoration:none\">"
                ++ item.process_number.orElse "-" ++ "</a></p>",
              "<p>\n                 <strong>"
                ++ (if (determineType upper item).tipo = "APOSTILAMENTO" then "Apostilamento"
                    else "Aditamento")
                ++ " nº </strong> <a href=\"" ++ item.link_pdf.toStr
                ++ "\" target=\"_blank\" style=\"color:blue;text-decoration:none\">"
                ++ item.amendment_number.orElse "S/N"
                ++ "</a> \n                 <strong>ao Contrato nº </strong> "
                ++ item.parent_contract.orElse "S/N" ++ "\n             </p>",
              "<p><strong>Contratada:</strong> "
                ++ (item.contractor.orElse "-" ++ " "
                  ++ (if item.company_doc.present = true then ", " ++ item.company_doc.text
                      else ""))
                ++ "</p>" ]
            ++ (if item.modality.present = true then
                  ["<p><strong>Modalidade:</strong> " ++ item.modality.text ++ "</p>"]
                else [])
            ++ [ "<p><strong>Objeto:</strong> " ++ item.object_text.orElse "-" ++ "</p>",
                 "<p><strong>Data da Assinatura:</strong> " ++ item.validity_start.orElse "-"
                  ++ "</p>",
                 "<p><strong>Data da Publicação:</strong> " ++ item.date.toStr ++ "</p>" ]
            ++ (if item.validity_end.present = true then
                  ["<p><strong>Vigência:</strong> "
                    ++ (item.validity_start.toStr ++ " e " ++ item.validity_end.text) ++ "</p>"]
                else [])
            ++ [ "<p><strong>Valor:</strong> " ++ item.value.orElse "Sem efeito financeiros"
                  ++ "</p>",
                 "</div>" ])
      ∧ (∀ (d : String), (JSValue.undefined).orElse d = d ∧ (JSValue.null).orElse d = d
          ∧ (JSValue.str "").orElse d = d
          ∧ ∀ s, s ≠ "" → (JSValue.str s).orElse d = s)
      ∧ (determineType upperLatin1 scenarioAditamento).tipo = "ADITAMENTO"
      ∧ (determineType upperLatin1 scenarioAditamento).label = "ADITAMENTO 2"
      ∧ hasLine "Modalidade:" (renderItem upperLatin1 scenarioAditamento) = false
      ∧ hasLine "Vigência:" (renderItem upperLatin1 scenarioAditamento) = false
      ∧ renderItem upperLatin1 scenarioAditamento
        = [ "<div class=\"text-item type-aditamento\">",
            "<p><strong>• Processo SEI: </strong> <a href=\"undefined\" target=\"_blank\" style=\"color:blue;text-decoration:none\">-</a></p>",
            "<p>\n                 <strong>Aditamento nº </strong> <a href=\"undefined\" target=\"_blank\" style=\"color:blue;text-decoration:none\">2</a> \n                 <strong>ao Contrato nº </strong> 15\n             </p>",
            "<p><strong>Contratada:</strong> - </p>",
            "<p><strong>Objeto:</strong> -</p>",
            "<p><strong>Data da Assinatura:</strong> -</p>",
            "<p><strong>Data da Publicação:</strong> undefined</p>",
            "<p><strong>Valor:</strong> Sem efeito financeiros</p>",
            "</div>" ]
      ∧ (determineType upperLatin1 fullApostila).tipo = "APOSTILAMENTO"
      ∧ renderItem upperLatin1 fullApostila
        = [ "<div class=\"text-item type-aditamento\">",
            "<p><strong>• Processo SEI: </strong> <a href=\"https://diario.example/1.html\" target=\"_blank\" style=\"color:blue;text-decoration:none\">6016.2025/0001-1</a></p>",
            "<p>\n                 <strong>Apostilamento nº </strong> <a href=\"https://diario.example/1.pdf\" target=\"_blank\" style=\"color:blue;text-decoration:none\">1</a> \n                 <strong>ao Contrato nº </strong> 012/2025\n             </p>",
            "<p><strong>Contratada:</strong> ACME LTDA , 12.345.678/0001-90</p>",
            "<p><strong>Modalidade:</strong> Pregão Eletrônico</p>",
            "<p><strong>Objeto:</strong> Reajuste</p>",
            "<p><strong>Data da Assinatura:</strong> 01/11/2025</p>",
            "<p><strong>Data da Publicação:</strong> 04/11/2025</p>",
            "<p><strong>Vigência:</strong> 01/11/2025 e 31/10/2026</p>",
            "<p><strong>Valor:</strong> R$ 500,00</p>",
            "</div>" ] := by
  refine ⟨?_, ?_, by decide, by decide, by decide, by decide, rfl, by decide, rfl⟩
  · intro upper item h
    rw [renderItem_amendment upper item h, renderLayout_amendment _ _ _ h]
    rfl
  · intro d
    refine ⟨rfl, rfl, rfl, ?_⟩
    intro s hs
    simp [JSValue.orElse, hs]

theorem renderTextView_amendment_layout_witness :
    ((determineType upperLatin1 scenarioAditamento).tipo = "ADITAMENTO"
        ∨ (determineType upperLatin1 scenarioAditamento).tipo = "APOSTILAMENTO")
      ∧ renderItem upperLatin1 scenarioAditamento
        = [ "<div class=\"text-item type-aditamento\">",
            "<p><strong>• Processo SEI: </strong> <a href=\"undefined\" target=\"_blank\" style=\"color:blue;text-decoration:none\">-</a></p>",
            "<p>\n                 <strong>Aditamento nº </strong> <a href=\"undefined\" target=\"_blank\" style=\"color:blue;text-decoration:none\">2</a> \n                 <strong>ao Contrato nº </strong> 15\n             </p>",
            "<p><strong>Contratada:</strong> - </p>",
            "<p><strong>Objeto:</strong> -</p>",
            "<p><strong>Data da Assinatura:</strong> -</p>",
            "<p><strong>Data da Publicação:</strong> undefined</p>",
            "<p><strong>Valor:</strong> Sem efeito financeiros</p>",
            "</div>" ]
      ∧ ((determineType upperLatin1 fullApostila).tipo = "ADITAMENTO"
        ∨ (determineType upperLatin1 fullApostila).tipo = "APOSTILAMENTO")
      ∧ renderItem upperLatin1 fullApostila
        = [ "<div class=\"text-item type-aditamento\">",
            "<p><strong>• Processo SEI: </strong> <a href=\"https://diario.example/1.html\" target=\"_blank\" style=\"color:blue;text-decoration:none\">6016.2025/0001-1</a></p>",
            "<p>\n                 <strong>Apostilamento nº </strong> <a href=\"https://diario.example/1.pdf\" target=\"_blank\" style=\"color:blue;text-decoration:none\">1</a> \n                 <strong>ao Contrato nº </strong> 012/2025\n             </p>",
            "<p><strong>Contratada:</strong> ACME LTDA , 12.345.678/0001-90</p>",
            "<p><strong>Modalidade:</strong> Pregão Eletrônico</p>",
            "<p><strong>Objeto:</strong> Reajuste</p>",
            "<p><strong>Data da Assinatura:</strong> 01/11/2025</p>",
            "<p><strong>Data da Publicação:</strong> 04/11/2025</p>",
            "<p><strong>Vigência:</strong> 01/11/2025 e 31/10/2026</p>",
            "<p><strong>Valor:</strong> R$ 500,00</p>",
            "</div>" ] :=
  ⟨Or.inl (by decide),
    (renderTextView_amendment_layout.1 upperLatin1 scenarioAditamento
      (Or.inl (by decide))).trans rfl,
    Or.inr (by decide),
    (renderTextView_amendment_layout.1 upperLatin1 fullApostila
      (Or.inr (by decide))).trans rfl⟩

theorem hasLine_of_mem (label value : String) (fragments : List String)
    (h : P label value ∈ fragments) : hasLine label fragments = true := by
  unfold hasLine
  rw [List.any_eq_true]
  refine ⟨P label value, h, ?_⟩
  rw [List.isPrefixOf_iff_prefix]
  refine ⟨value.data ++ "</p>".data, ?_⟩
  simp [P, String.data_append, List.append_assoc]

theorem JSValue.orElse_of_present (v : JSValue) (d : String) (h : v.present = true) :
    v.orElse d = v.text := by
  obtain ⟨s, hs, hne, _⟩ := v.present_str h
  rw [hs]
  simp [JSValue.orElse, JSValue.text, hne]

theorem renderLayout_contrato (visualClass : String) (item : Item) :
    renderLayout "CONTRATO" visualClass item
      = [ itemOpen visualClass, processLink item, contractLine "Contrato" item ]
        ++ (if item.modality.present = true then [P "Modalidade:" item.modality.text] else [])
        ++ [ P "Objeto:" (item.object_text.orElse "-"),
             P "Data da Assinatura:" (item.validity_start.orElse "-"),
             P "Início da Vigência do Contrato:" (item.validity_start.orElse "-"),
             P "Término da Vigência do Contrato:" (item.validity_end.orElse "-"),
             P "Data da Publicação:" item.date.toStr,
             P "Valor:" (item.value.orElse "Sem efeito financeiros"), "</div>" ] := by
  have h1 : ¬("CONTRATO" = "ADITAMENTO" ∨ "CONTRATO" = "APOSTILAMENTO") := by decide
  have h2 : ¬("CONTRATO" = "PARCERIA") := by decide
  have h3 : ¬("CONTRATO" = "DOACAO") := by decide
  have h4 : "CONTRATO" = "CONTRATO" ∨ "CONTRATO" = "EMPENHO" := by decide
  have h5 : ¬("CONTRATO" = "EMPENHO") := by decide
  unfold renderLayout
  simp only [if_neg h1, if_neg h2, if_neg h3, if_pos h4, if_neg h5, if_true,
    JSValue.orElse_present]
  by_cases hm : item.modality.present = true
  · simp only [hm, if_true, JSValue.orElse_empty]
    rfl
  · simp only [hm, if_false]
    rfl

theorem renderLayout_empenho (visualClass : String) (item : Item) :
    renderLayout "EMPENHO" visualClass item
      = [ itemOpen visualClass, processLink item, contractLine "Nota de Empenho" item ]
        ++ (if item.modality.present = true then [P "Modalidade:" item.modality.text] else [])
        ++ [ P "Objeto:" (item.object_text.orElse "-"),
             P "Data da Assinatura:" (item.validity_start.orElse "-"),
             P "Data da Publicação:" item.date.toStr,
             P "Valor:" (item.value.orElse "Sem efeito financeiros"), "</div>" ] := by
  have h1 : ¬("EMPENHO" = "ADITAMENTO" ∨ "EMPENHO" = "APOSTILAMENTO") := by decide
  have h2 : ¬("EMPENHO" = "PARCERIA") := by decide
  have h3 : ¬("EMPENHO" = "DOACAO") := by decide
  have h4 : "EMPENHO" = "CONTRATO" ∨ "EMPENHO" = "EMPENHO" := by decide
  have h5 : ¬("EMPENHO" = "CONTRATO") := by decide
  unfold renderLayout
  simp only [if_neg h1, if_neg h2, if_neg h3, if_pos h4, if_neg h5, if_true,
    JSValue.orElse_present]
  by_cases hm : item.modality.present = true
  · simp only [hm, if_true, JSValue.orElse_empty]
    rfl
  · simp only [hm, if_false]
    rfl

theorem renderItem_contrato (upper : Char → List Char) (item : Item)
    (h : (determineType upper item).tipo = "CONTRATO") :
    renderItem upper item = renderLayout "CONTRATO" "contrato" item := by
  have hv : (determineType upper item).visualClass = "contrato" := by
    rw [determineType_visualClass_of_tipo upper item _ h]
    rfl
  unfold renderItem
  simp only [hv, h]

theorem renderItem_empenho (upper : Char → List Char) (item : Item)
    (h : (determineType upper item).tipo = "EMPENHO") :
    renderItem upper item = renderLayout "EMPENHO" "contrato" item := by
  have hv : (determineType upper item).visualClass = "contrato" := by
    rw [determineType_visualClass_of_tipo upper item _ h]
    rfl
  unfold renderItem
  simp only [hv, h]

/-- C11: a record typed CONTRATO whose layout fields are all present (non-empty
and not `-`) is rendered as the item block that holds, in this order and with nothing
else between the opening and the closing tag: the process link with `process_number`;
the line `Contrato nº contract_number - contractor , company_doc`; Modalidade; Objeto;
Data da Assinatura and Início da Vigência do Contrato, both with `validity_start`;
Término da Vigência do Contrato with `validity_end`; Data da Publicação with `date`;
Valor with `value`. -/
theorem renderTextView_contrato_all_fields (upper : Char → List Char) (item : Item)
    (htipo : (determineType upper item).tipo = "CONTRATO")
    (hprocess : item.process_number.present = true)
    (hnumber : item.contract_number.present = true)
    (hcontractor : item.contractor.present = true)
    (hdoc : item.company_doc.present = true)
    (hmodality : item.modality.present = true)
    (hobject : item.object_text.present = true)
    (hstart : item.validity_start.present = true)
    (hend : item.validity_end.present = true)
    (hdate : item.date.present = true)
    (hvalue : item.value.present = true) :
    renderItem upper item
      = [ "<div class=\"text-item type-contrato\">",
          "<p><strong>• Processo SEI: </strong> <a href=\"" ++ item.link_html.toStr
            ++ "\" target=\"_blank\" style=\"color:blue;text-decoration:none\">"
            ++ item.process_number.text ++ "</a></p>",
          "<p>\n                <strong>" ++ "Contrato" ++ " nº </strong> <a href=\""
            ++ item.link_pdf.toStr
            ++ "\" target=\"_blank\" style=\"color:blue;text-decoration:none\">"
            ++ item.contract_number.text ++ "</a> - " ++ item.contractor.text ++ " "
            ++ (", " ++ item.company_doc.text) ++ "\n            </p>",
          P "Modalidade:" item.modality.text,
          P "Objeto:" item.object_text.text,
          P "Data da Assinatura:" item.validity_start.text,
          P "Início da Vigência do Contrato:" item.validity_start.text,
          P "Término da Vigência do Contrato:" item.validity_end.text,
          P "Data da Publicação:" item.date.text,
          P "Valor:" item.value.text,
          "</div>" ] := by
  rw [renderItem_contrato upper item htipo, renderLayout_contrato]
  have hline : contractLine "Contrato" item
      = "<p>\n                <strong>" ++ "Contrato" ++ " nº </strong> <a href=\""
        ++ item.link_pdf.toStr
        ++ "\" target=\"_blank\" style=\"color:blue;text-decoration:none\">"
        ++ item.contract_number.text ++ "</a> - " ++ item.contractor.text ++ " "
        ++ (", " ++ item.company_doc.text) ++ "\n            </p>" := by
    unfold contractLine
    simp only [JSValue.source_present, hnumber, if_true, companyDocSuffix_eq, hdoc,
      JSValue.toStr_present _ hnumber, JSValue.toStr_present _ hcontractor]
  have hlink : processLink item
      = "<p><strong>• Processo SEI: </strong> <a href=\"" ++ item.link_html.toStr
        ++ "\" target=\"_blank\" style=\"color:blue;text-decoration:none\">"
        ++ item.process_number.text ++ "</a></p>" := by
    unfold processLink
    rw [JSValue.orElse_of_present _ _ hprocess]
  rw [hline, hlink, if_pos hmodality, JSValue.orElse_of_present _ _ hobject,
    JSValue.orElse_of_present _ _ hstart, JSValue.orElse_of_present _ _ hend,
    JSValue.orElse_of_present _ _ hvalue, JSValue.toStr_present _ hdate]
  rfl

theorem renderTextView_contrato_all_fields_witness :
    (determineType upperLatin1 fullContrato).tipo = "CONTRATO"
      ∧ renderItem upperLatin1 fullContrato
        = [ "<div class=\"text-item type-contrato\">",
            "<p><strong>• Processo SEI: </strong> <a href=\"https://diario.example/1.html\" target=\"_blank\" style=\"color:blue;text-decoration:none\">6016.2025/0001-1</a></p>",
            "<p>\n                <strong>Contrato nº </strong> <a href=\"https://diario.example/1.pdf\" target=\"_blank\" style=\"color:blue;text-decoration:none\">012/2025</a> - ACME LTDA , 12.345.678/0001-90\n            </p>",
            "<p><strong>Modalidade:</strong> Pregão Eletrônico</p>",
            "<p><strong>Objeto:</strong> Serviços de limpeza</p>",
            "<p><strong>Data da Assinatura:</strong> 01/11/2025</p>",
            "<p><strong>Início da Vigência do Contrato:</strong> 01/11/2025</p>",
            "<p><strong>Término da Vigência do Contrato:</strong> 31/10/2026</p>",
            "<p><strong>Data da Publicação:</strong> 04/11/2025</p>",
            "<p><strong>Valor:</strong> R$ 10.000,00</p>",
            "</div>" ] :=
  ⟨by decide,
    (renderTextView_contrato_all_fields upperLatin1 fullContrato (by decide) (by decide)
      (by decide) (by decide) (by decide) (by decide) (by decide) (by decide) (by decide)
      (by decide) (by decide)).trans rfl⟩

/-- C12: in the CONTRATO/EMPENHO layout the vigency lines belong to CONTRATO only.
For every record typed EMPENHO the instrument line is labelled `Nota de Empenho` and
the item block holds no line `Início da Vigência do Contrato` and no line `Término da
Vigência do Contrato`, whatever `validity_start` and `validity_end` hold; for every
record typed CONTRATO the instrument line is labelled `Contrato` and both lines are in
the block, directly after Data da Assinatura, showing `-` for an absent date. -/
theorem renderTextView_vigency_lines :
    (∀ (upper : Char → List Char) (item : Item),
        (determineType upper item).tipo = "EMPENHO" →
        renderItem upper item
          = [ itemOpen "contrato", processLink item, contractLine "Nota de Empenho" item ]
            ++ (if item.modality.present = true then [P "Modalidade:" item.modality.text]
                else [])
            ++ [ P "Objeto:" (item.object_text.orElse "-"),
                 P "Data da Assinatura:" (item.validity_start.orElse "-"),
                 P "Data da Publicação:" item.date.toStr,
                 P "Valor:" (item.value.orElse "Sem efeito financeiros"), "</div>" ]
          ∧ hasLine "Início da Vigência do Contrato:" (renderItem upper item) = false
          ∧ hasLine "Término da Vigência do Contrato:" (renderItem upper item) = false
          ∧ (∀ value, P "Início da Vigência do Contrato:" value ∉ renderItem upper item)
          ∧ (∀ value, P "Término da Vigência do Contrato:" value ∉ renderItem upper item))
      ∧ (∀ (upper : Char → List Char) (item : Item),
          (determineType upper item).tipo = "CONTRATO" →
          renderItem upper item
            = [ itemOpen "contrato", processLink item, contractLine "Contrato" item ]
              ++ (if item.modality.present = true then [P "Modalidade:" item.modality.text]
                  else [])
              ++ [ P "Objeto:" (item.object_text.orElse "-"),
                   P "Data da Assinatura:" (item.validity_start.orElse "-"),
                   P "Início da Vigência do Contrato:" (item.validity_start.orElse "-"),
                   P "Término da Vigência do Contrato:" (item.validity_end.orElse "-"),
                   P "Data da Publicação:" item.date.toStr,
                   P "Valor:" (item.value.orElse "Sem efeito financeiros"), "</div>" ]
            ∧ P "Início da Vigência do Contrato:" (item.validity_start.orElse "-")
              ∈ renderItem upper item
            ∧ P "Término da Vigência do Contrato:" (item.validity_end.orElse "-")
              ∈ renderItem upper item)
      ∧ (∀ (labelInst : String) (item : Item),
          ("<p>\n                <strong>" ++ labelInst ++ " nº </strong> ").data
            <+: (contractLine labelInst item).data)
      ∧ (∀ d, (JSValue.undefined).orElse d = d ∧ (JSValue.null).orElse d = d
          ∧ (JSValue.str "").orElse d = d) := by
  refine ⟨?_, ?_, ?_, fun _ => ⟨rfl, rfl, rfl⟩⟩
  · intro upper item h
    have hlist := (renderItem_empenho upper item h).trans (renderLayout_empenho _ item)
    have hi : hasLine "Início da Vigência do Contrato:" (renderItem upper item) = false := by
      rw [hlist]
      by_cases hm : item.modality.present = true
      · rw [if_pos hm]
        rfl
      · rw [if_neg hm]
        rfl
    have ht : hasLine "Término da Vigência do Contrato:" (renderItem upper item) = false := by
      rw [hlist]
      by_cases hm : item.modality.present = true
      · rw [if_pos hm]
        rfl
      · rw [if_neg hm]
        rfl
    refine ⟨hlist, hi, ht, ?_, ?_⟩
    · intro value hmem
      rw [hasLine_of_mem _ _ _ hmem] at hi
      exact absurd hi (by decide)
    · intro value hmem
      rw [hasLine_of_mem _ _ _ hmem] at ht
      exact absurd ht (by decide)
  · intro upper item h
    have hlist := (renderItem_contrato upper item h).trans (renderLayout_contrato _ item)
    refine ⟨hlist, ?_, ?_⟩ <;> rw [hlist] <;> simp
  · intro labelInst item
    refine ⟨("<a href=\"" ++ item.link_pdf.toStr
      ++ "\" target=\"_blank\" style=\"color:blue;text-decoration:none\">"
      ++ (if item.contract_number.truthy && item.contract_number != .str "-" then
            item.contract_number.toStr else "S/N")
      ++ "</a> - " ++ item.contractor.toStr ++ " " ++ companyDocSuffix item
      ++ "\n            </p>").data, ?_⟩
    simp [contractLine, String.data_append, List.append_assoc]

theorem renderTextView_vigency_lines_witness :
    (determineType upperLatin1 empenhoRecord).tipo = "EMPENHO"
      ∧ hasLine "Início da Vigência do Contrato:" (renderItem upperLatin1 empenhoRecord) = false
      ∧ hasLine "Término da Vigência do Contrato:" (renderItem upperLatin1 empenhoRecord) = false
      ∧ (determineType upperLatin1 fullContrato).tipo = "CONTRATO"
      ∧ P "Término da Vigência do Contrato:" (fullContrato.validity_end.orElse "-")
        ∈ renderItem upperLatin1 fullContrato :=
  ⟨by decide,
    (renderTextView_vigency_lines.1 upperLatin1 empenhoRecord (by decide)).2.1,
    (renderTextView_vigency_lines.1 upperLatin1 empenhoRecord (by decide)).2.2.1,
    by decide,
    (renderTextView_vigency_lines.2.1 upperLatin1 fullContrato (by decide)).2.2⟩

theorem jsLength_empty : jsLength "" = 0 := rfl

theorem publicationLine_eq (item : Item) :
    publicationLine (item.modality.orElse "") item
      = "<p>\n                <strong>Número da Publicação: </strong> \n                <a href=\""
        ++ item.link_pdf.toStr
        ++ "\" target=\"_blank\" style=\"color:blue;text-decoration:none\">"
        ++ (if item.modality.present = true then item.modality.text else "PUBLICACAO") ++ " "
        ++ (match item.contract_number with
            | .str n => if jsLength n > 2 then n else "S/N"
            | _ => "S/N")
        ++ "</a>\n             </p>" := by
  have hnum : (if (item.contract_number.truthy
        && decide (jsLength item.contract_number.toStr > 2)) = true
        then item.contract_number.toStr else "S/N")
      = (match item.contract_number with
          | .str n => if jsLength n > 2 then n else "S/N"
          | _ => "S/N") := by
    cases item.contract_number with
    | str n =>
      by_cases hn : n = ""
      · subst hn
        rfl
      · simp [JSValue.truthy, JSValue.toStr, hn]
    | undefined => rfl
    | null => rfl
  have hlabel : (if item.modality.orElse "" ≠ "" ∧ item.modality.orElse "" ≠ "-"
        then item.modality.orElse "" else "PUBLICACAO")
      = (if item.modality.present = true then item.modality.text else "PUBLICACAO") := by
    simp only [JSValue.orElse_present]
    simp only [JSValue.orElse_empty]
  unfold publicationLine
  simp only [hnum, hlabel]

theorem renderLayout_default (tipo visualClass : String) (item : Item)
    (h : tipo ∉ layoutTypes) :
    renderLayout tipo visualClass item
      = [ itemOpen visualClass ]
        ++ (if tipo = "DIVERSOS" then [diversosBanner] else [])
        ++ [ P "Número do Processo:" (item.process_number.orElse "-"),
             publicationLine (item.modality.orElse "") item,
             documentLine item ]
        ++ (if tipo ≠ "DIVERSOS" then
              [ P "Licitante Vencedor:" (item.contractor.orElse "EM PROCESSO"),
                P "Modalidade:" (item.modality.orElse ""),
                P "Data da Abertura:" (item.opening_date.orElse "-") ]
            else [])
        ++ [ P "Objeto:" (item.object_text.orElse "-"),
             P "Data de Publicação:" item.date.toStr, "</div>" ] := by
  simp only [layoutTypes, List.mem_cons, List.mem_nil_iff, or_false, not_or] at h
  obtain ⟨g1, g2, g3, g4, g5, g6⟩ := h
  have h1 : ¬(tipo = "ADITAMENTO" ∨ tipo = "APOSTILAMENTO") := by tauto
  have h4 : ¬(tipo = "CONTRATO" ∨ tipo = "EMPENHO") := by tauto
  unfold renderLayout
  simp only [if_neg h1, if_neg g3, if_neg g4, if_neg h4]
  by_cases hd : tipo = "DIVERSOS"
  · simp only [hd, if_true, ne_eq, not_true_eq_false, if_false]
    rfl
  · simp only [hd, if_false, ne_eq, not_false_eq_true, if_true]
    rfl

set_option maxRecDepth 100000 in
/-- C14, as stated, fails: a record typed OUTRO whose modality is the placeholder
`-` gets the publication line `PUBLICACAO S/N`, not the line `- S/N` that
`modality or PUBLICACAO` gives. -/
theorem publication_label_skips_dash :
    (determineType upperLatin1 avisoDashRecord).tipo = "OUTRO"
      ∧ (determineType upperLatin1 avisoDashRecord).tipo ∉ layoutTypes
      ∧ avisoDashRecord.modality.orElse "PUBLICACAO" = "-"
      ∧ publicationLineByModality avisoDashRecord
        = "<p>\n                <strong>Número da Publicação: </strong> \n                <a href=\"undefined\" target=\"_blank\" style=\"color:blue;text-decoration:none\">- S/N</a>\n             </p>"
      ∧ renderItem upperLatin1 avisoDashRecord
        = [ "<div class=\"text-item type-outro\">",
            "<p><strong>Número do Processo:</strong> -</p>",
            "<p>\n                <strong>Número da Publicação: </strong> \n                <a href=\"undefined\" target=\"_blank\" style=\"color:blue;text-decoration:none\">PUBLICACAO S/N</a>\n             </p>",
            "<p><strong>Documento: </strong> <a href=\"undefined\" target=\"_blank\" style=\"color:blue;text-decoration:none\">-</a></p>",
            "<p><strong>Licitante Vencedor:</strong> EM PROCESSO</p>",
            "<p><strong>Modalidade:</strong> -</p>",
            "<p><strong>Data da Abertura:</strong> -</p>",
            "<p><strong>Objeto:</strong> -</p>",
            "<p><strong>Data de Publicação:</strong> undefined</p>",
            "</div>" ]
      ∧ "<p>\n                <strong>Número da Publicação: </strong> \n                <a href=\"undefined\" target=\"_blank\" style=\"color:blue;text-decoration:none\">- S/N</a>\n             </p>"
        ∉ renderItem upperLatin1 avisoDashRecord := by
  refine ⟨by decide, by decide, by decide, rfl, rfl, ?_⟩
  have hlist : renderItem upperLatin1 avisoDashRecord
      = [ "<div class=\"text-item type-outro\">",
            "<p><strong>Número do Processo:</strong> -</p>",
            "<p>\n                <strong>Número da Publicação: </strong> \n                <a href=\"undefined\" target=\"_blank\" style=\"color:blue;text-decoration:none\">PUBLICACAO S/N</a>\n             </p>",
            "<p><strong>Documento: </strong> <a href=\"undefined\" target=\"_blank\" style=\"color:blue;text-decoration:none\">-</a></p>",
            "<p><strong>Licitante Vencedor:</strong> EM PROCESSO</p>",
            "<p><strong>Modalidade:</strong> -</p>",
            "<p><strong>Data da Abertura:</strong> -</p>",
            "<p><strong>Objeto:</strong> -</p>",
            "<p><strong>Data de Publicação:</strong> undefined</p>",
            "</div>" ] := rfl
  rw [hlist]
  decide

/-- C14, amended: for every record whose tipo is none of ADITAMENTO, APOSTILAMENTO,
PARCERIA, DOACAO, CONTRATO, EMPENHO the item block is the default layout: the process
number; the line `Número da Publicação:` with the modality when it is present and not
`-`, `PUBLICACAO` otherwise, followed by `contract_number` when its length exceeds 2,
`S/N` otherwise; the document link; then, for a tipo other than DIVERSOS, Licitante
Vencedor (`contractor`, or `EM PROCESSO`), Modalidade and Data da Abertura; then Objeto
and the publication date. A DIVERSOS block starts with the low-priority banner and has
none of those three lines. -/
theorem renderTextView_default_layout (upper : Char → List Char) (item : Item)
    (h : (determineType upper item).tipo ∉ layoutTypes) :
    renderItem upper item
        = [ "<div class=\"text-item type-" ++ (determineType upper item).visualClass ++ "\">" ]
          ++ (if (determineType upper item).tipo = "DIVERSOS" then
                ["<p style=\"opacity: 0.7; font-size: 0.9em;\"><em>[Publicação Diversa - Baixa Prioridade]</em></p>"]
              else [])
          ++ [ "<p><strong>Número do Processo:</strong> " ++ item.process_number.orElse "-"
                ++ "</p>",
               "<p>\n                <strong>Número da Publicação: </strong> \n                <a href=\""
                ++ item.link_pdf.toStr
                ++ "\" target=\"_blank\" style=\"color:blue;text-decoration:none\">"
                ++ (if item.modality.present = true then item.modality.text else "PUBLICACAO")
                ++ " "
                ++ (match item.contract_number with
                    | .str n => if jsLength n > 2 then n else "S/N"
                    | _ => "S/N")
                ++ "</a>\n             </p>",
               "<p><strong>Documento: </strong> <a href=\"" ++ item.link_html.toStr
                ++ "\" target=\"_blank\" style=\"color:blue;text-decoration:none\">"
                ++ item.document_id.orElse "-" ++ "</a></p>" ]
          ++ (if (determineType upper item).tipo ≠ "DIVERSOS" then
                [ "<p><strong>Licitante Vencedor:</strong> "
                    ++ item.contractor.orElse "EM PROCESSO" ++ "</p>",
                  "<p><strong>Modalidade:</strong> " ++ item.modality.text ++ "</p>",
                  "<p><strong>Data da Abertura:</strong> " ++ item.opening_date.orElse "-"
                    ++ "</p>" ]
              else [])
          ++ [ "<p><strong>Objeto:</strong> " ++ item.object_text.orElse "-" ++ "</p>",
               "<p><strong>Data de Publicação:</strong> " ++ item.date.toStr ++ "</p>",
               "</div>" ]
      ∧ ((determineType upper item).tipo = "DIVERSOS" →
          (renderItem upper item).get? 1
            = some "<p style=\"opacity: 0.7; font-size: 0.9em;\"><em>[Publicação Diversa - Baixa Prioridade]</em></p>"
          ∧ hasLine "Licitante Vencedor:" (renderItem upper item) = false
          ∧ hasLine "Modalidade:" (renderItem upper item) = false
          ∧ hasLine "Data da Abertura:" (renderItem upper item) = false) := by
  have hlist : renderItem upper item
      = renderLayout (determineType upper item).tipo (determineType upper item).visualClass
          item := rfl
  rw [renderLayout_default _ _ _ h, publicationLine_eq, JSValue.orElse_empty] at hlist
  refine ⟨hlist.trans rfl, ?_⟩
  intro hd
  rw [hlist]
  simp only [hd, if_true, ne_eq, not_true_eq_false, if_false]
  exact ⟨rfl, rfl, rfl, rfl⟩

theorem renderTextView_default_layout_witness :
    (determineType upperLatin1 diversosRecord).tipo ∉ layoutTypes
      ∧ (determineType upperLatin1 diversosRecord).tipo = "DIVERSOS"
      ∧ renderItem upperLatin1 diversosRecord
        = [ "<div class=\"text-item type-diversos\">",
            "<p style=\"opacity: 0.7; font-size: 0.9em;\"><em>[Publicação Diversa - Baixa Prioridade]</em></p>",
            "<p><strong>Número do Processo:</strong> -</p>",
            "<p>\n                <strong>Número da Publicação: </strong> \n                <a href=\"undefined\" target=\"_blank\" style=\"color:blue;text-decoration:none\">PUBLICACAO S/N</a>\n             </p>",
            "<p><strong>Documento: </strong> <a href=\"undefined\" target=\"_blank\" style=\"color:blue;text-decoration:none\">-</a></p>",
            "<p><strong>Objeto:</strong> -</p>",
            "<p><strong>Data de Publicação:</strong> undefined</p>",
            "</div>" ]
      ∧ hasLine "Licitante Vencedor:" (renderItem upperLatin1 diversosRecord) = false
      ∧ (determineType upperLatin1 pregaoFull).tipo ∉ layoutTypes
      ∧ renderItem upperLatin1 pregaoFull
        = [ "<div class=\"text-item type-pregao\">",
            "<p><strong>Número do Processo:</strong> 6016.2025/0001-1</p>",
            "<p>\n                <strong>Número da Publicação: </strong> \n                <a href=\"https://diario.example/1.pdf\" target=\"_blank\" style=\"color:blue;text-decoration:none\">Pregão Eletrônico 12/2025</a>\n             </p>",
            "<p><strong>Documento: </strong> <a href=\"https://diario.example/1.html\" target=\"_blank\" style=\"color:blue;text-decoration:none\">DOC-123</a></p>",
            "<p><strong>Licitante Vencedor:</strong> ACME LTDA</p>",
            "<p><strong>Modalidade:</strong> Pregão Eletrônico</p>",
            "<p><strong>Data da Abertura:</strong> 10/11/2025</p>",
            "<p><strong>Objeto:</strong> Papel A4</p>",
            "<p><strong>Data de Publicação:</strong> 04/11/2025</p>",
            "</div>" ] :=
  ⟨by decide, by decide,
    (renderTextView_default_layout upperLatin1 diversosRecord (by decide)).1.trans rfl,
    ((renderTextView_default_layout upperLatin1 diversosRecord (by decide)).2
      (by decide)).2.1,
    by decide,
    (renderTextView_default_layout upperLatin1 pregaoFull (by decide)).1.trans rfl⟩

theorem renderLayout_process_number (tipo visualClass : String) (item : Item)
    (blank : JSValue) (hb : blank = .undefined ∨ blank = .null ∨ blank = .str "") :
    renderLayout tipo visualClass { item with process_number := blank }
      = renderLayout tipo visualClass { item with process_number := .str "-" } := by
  have e1 : blank.orElse "-" = "-" := JSValue.orElse_blank _ _ hb
  have e2 : (JSValue.str "-").orElse "-" = "-" := rfl
  simp only [renderLayout, processLink, e1, e2]
  rfl

theorem renderLayout_object_text (tipo visualClass : String) (item : Item)
    (blank : JSValue) (hb : blank = .undefined ∨ blank = .null ∨ blank = .str "") :
    renderLayout tipo visualClass { item with object_text := blank }
      = renderLayout tipo visualClass { item with object_text := .str "-" } := by
  have e1 : blank.orElse "-" = "-" := JSValue.orElse_blank _ _ hb
  have e2 : (JSValue.str "-").orElse "-" = "-" := rfl
  simp only [renderLayout, e1, e2]
  rfl

theorem renderLayout_document_id (tipo visualClass : String) (item : Item)
    (blank : JSValue) (hb : blank = .undefined ∨ blank = .null ∨ blank = .str "") :
    renderLayout tipo visualClass { item with document_id := blank }
      = renderLayout tipo visualClass { item with document_id := .str "-" } := by
  have e1 : blank.orElse "-" = "-" := JSValue.orElse_blank _ _ hb
  have e2 : (JSValue.str "-").orElse "-" = "-" := rfl
  simp only [renderLayout, documentLine, e1, e2]
  rfl

theorem renderLayout_opening_date (tipo visualClass : String) (item : Item)
    (blank : JSValue) (hb : blank = .undefined ∨ blank = .null ∨ blank = .str "") :
    renderLayout tipo visualClass { item with opening_date := blank }
      = renderLayout tipo visualClass { item with opening_date := .str "-" } := by
  have e1 : blank.orElse "-" = "-" := JSValue.orElse_blank _ _ hb
  have e2 : (JSValue.str "-").orElse "-" = "-" := rfl
  simp only [renderLayout, e1, e2]
  rfl

theorem renderLayout_parent_contract (tipo visualClass : String) (item : Item)
    (blank : JSValue) (hb : blank = .undefined ∨ blank = .null ∨ blank = .str "") :
    renderLayout tipo visualClass { item with parent_contract := blank }
      = renderLayout tipo visualClass { item with parent_contract := .str "S/N" } := by
  have e1 : blank.orElse "S/N" = "S/N" := JSValue.orElse_blank _ _ hb
  have e2 : (JSValue.str "S/N").orElse "S/N" = "S/N" := rfl
  simp only [renderLayout, amendmentLine, e1, e2]
  rfl

theorem renderLayout_validity_end (tipo visualClass : String) (item : Item)
    (blank : JSValue) (hb : blank = .undefined ∨ blank = .null ∨ blank = .str "") :
    renderLayout tipo visualClass { item with validity_end := blank }
      = renderLayout tipo visualClass { item with validity_end := .str "-" } := by
  have e1 : blank.orElse "-" = "-" := JSValue.orElse_blank _ _ hb
  have e2 : (JSValue.str "-").orElse "-" = "-" := rfl
  have c1 : (blank.truthy && blank != .str "-") = false := by
    rw [JSValue.truthy_blank _ hb]
    rfl
  have c2 : ((JSValue.str "-").truthy && JSValue.str "-" != .str "-") = false := by decide
  simp only [renderLayout, e1, e2, c1, c2]
  rfl

theorem renderLayout_contract_number (tipo visualClass : String) (item : Item)
    (blank : JSValue) (hb : blank = .undefined ∨ blank = .null ∨ blank = .str "") :
    renderLayout tipo visualClass { item with contract_number := blank }
      = renderLayout tipo visualClass { item with contract_number := .str "S/N" } := by
  have e1 : blank.orElse "S/N" = "S/N" := JSValue.orElse_blank _ _ hb
  have e2 : (JSValue.str "S/N").orElse "S/N" = "S/N" := rfl
  have c1 : (if (blank.truthy && blank != .str "-") = true then blank.toStr else "S/N")
      = "S/N" := by
    rw [JSValue.truthy_blank _ hb]
    rfl
  have c2 : (if ((JSValue.str "S/N").truthy && JSValue.str "S/N" != .str "-") = true
      then (JSValue.str "S/N").toStr else "S/N") = "S/N" := by decide
  have d1 : (if (blank.truthy && decide (jsLength blank.toStr > 2)) = true
      then blank.toStr else "S/N") = "S/N" := by
    rw [JSValue.truthy_blank _ hb]
    rfl
  have d2 : (if ((JSValue.str "S/N").truthy
      && decide (jsLength (JSValue.str "S/N").toStr > 2)) = true
      then (JSValue.str "S/N").toStr else "S/N") = "S/N" := by decide
  simp only [renderLayout, partnershipLine, contractLine, publicationLine, e1, e2, c1, c2, d1,
    d2]
  rfl

theorem renderLayout_value (tipo visualClass : String) (item : Item)
    (blank : JSValue) (hb : blank = .undefined ∨ blank = .null ∨ blank = .str "") :
    renderLayout tipo visualClass { item with value := blank }
      = renderLayout tipo visualClass
          { item with
            value := .str (if tipo = "PARCERIA" then "-" else "Sem efeito financeiros") } := by
  have e1 : ∀ d, blank.orElse d = d := fun d => JSValue.orElse_blank _ d hb
  by_cases hp : tipo = "PARCERIA"
  · subst hp
    have h1 : ¬("PARCERIA" = "ADITAMENTO" ∨ "PARCERIA" = "APOSTILAMENTO") := by decide
    have e2 : (JSValue.str "-").orElse "-" = "-" := rfl
    simp only [renderLayout, if_neg h1, if_true, e1, e2]
    rfl
  · have e2 : (JSValue.str "Sem efeito financeiros").orElse "Sem efeito financeiros"
        = "Sem efeito financeiros" := rfl
    simp only [renderLayout, if_neg hp, e1, e2]
    rfl

theorem renderLayout_open_close (tipo visualClass : String) (item : Item) :
    (renderLayout tipo visualClass item).head? = some (itemOpen visualClass)
      ∧ (renderLayout tipo visualClass item).getLast? = some "</div>" := by
  unfold renderLayout
  simp only []
  constructor
  · split_ifs <;> rfl
  · rw [List.getLast?_append]
    rfl

theorem renderLayout_parceria (visualClass : String) (item : Item) :
    renderLayout "PARCERIA" visualClass item
      = [ itemOpen visualClass, processLink item, partnershipLine item,
          P "Participe/OS:" (item.contractor.orElse "-"),
          P "Objeto:" (item.object_text.orElse "-"),
          P "Vigência:" (item.validity_start.orElse "-" ++ " a " ++ item.validity_end.orElse "-"),
          P "Valor:" (item.value.orElse "-"),
          P "Data da Publicação:" item.date.toStr, "</div>" ] := by
  have h1 : ¬("PARCERIA" = "ADITAMENTO" ∨ "PARCERIA" = "APOSTILAMENTO") := by decide
  unfold renderLayout
  simp only [if_neg h1, if_true]
  rfl

theorem renderLayout_doacao (visualClass : String) (item : Item) :
    renderLayout "DOACAO" visualClass item
      = [ itemOpen visualClass, processLink item, donationLine item,
          P "Doador/Comodatário:" (item.contractor.orElse "-"),
          P "Objeto:" (item.object_text.orElse "-"),
          P "Encargos:" "Sem ônus para a municipalidade",
          P "Data da Publicação:" item.date.toStr, "</div>" ] := by
  have h1 : ¬("DOACAO" = "ADITAMENTO" ∨ "DOACAO" = "APOSTILAMENTO") := by decide
  have h2 : ¬("DOACAO" = "PARCERIA") := by decide
  unfold renderLayout
  simp only [if_neg h1, if_neg h2, if_true]
  rfl

theorem renderItem_parceria (upper : Char → List Char) (item : Item)
    (h : (determineType upper item).tipo = "PARCERIA") :
    renderItem upper item = renderLayout "PARCERIA" "parceria" item := by
  have hv : (determineType upper item).visualClass = "parceria" := by
    rw [determineType_visualClass_of_tipo upper item _ h]
    rfl
  unfold renderItem
  simp only [hv, h]

theorem renderItem_doacao (upper : Char → List Char) (item : Item)
    (h : (determineType upper item).tipo = "DOACAO") :
    renderItem upper item = renderLayout "DOACAO" "doacao" item := by
  have hv : (determineType upper item).visualClass = "doacao" := by
    rw [determineType_visualClass_of_tipo upper item _ h]
    rfl
  unfold renderItem
  simp only [hv, h]

theorem layoutTypes_cases (tipo : String) (h : tipo ∈ layoutTypes) :
    (tipo = "ADITAMENTO" ∨ tipo = "APOSTILAMENTO") ∨ tipo = "PARCERIA" ∨ tipo = "DOACAO"
      ∨ tipo = "CONTRATO" ∨ tipo = "EMPENHO" := by
  simp only [layoutTypes, List.mem_cons, List.mem_nil_iff, or_false] at h
  tauto

theorem objeto_mem (tipo visualClass : String) (item : Item) :
    P "Objeto:" (item.object_text.orElse "-") ∈ renderLayout tipo visualClass item := by
  by_cases h : tipo ∈ layoutTypes
  · rcases layoutTypes_cases tipo h with h | h | h | h | h
    · rw [renderLayout_amendment _ _ _ h]
      simp
    · subst h
      rw [renderLayout_parceria]
      simp
    · subst h
      rw [renderLayout_doacao]
      simp
    · subst h
      rw [renderLayout_contrato]
      simp
    · subst h
      rw [renderLayout_empenho]
      simp
  · rw [renderLayout_default _ _ _ h]
    simp

theorem processLink_mem (tipo visualClass : String) (item : Item) (h : tipo ∈ layoutTypes) :
    processLink item ∈ renderLayout tipo visualClass item := by
  rcases layoutTypes_cases tipo h with h | h | h | h | h
  · rw [renderLayout_amendment _ _ _ h]
    simp
  · subst h
    rw [renderLayout_parceria]
    simp
  · subst h
    rw [renderLayout_doacao]
    simp
  · subst h
    rw [renderLayout_contrato]
    simp
  · subst h
    rw [renderLayout_empenho]
    simp

theorem publicacao_mem (tipo visualClass : String) (item : Item) (h : tipo ∈ layoutTypes) :
    P "Data da Publicação:" item.date.toStr ∈ renderLayout tipo visualClass item := by
  rcases layoutTypes_cases tipo h with h | h | h | h | h
  · rw [renderLayout_amendment _ _ _ h]
    simp
  · subst h
    rw [renderLayout_parceria]
    simp
  · subst h
    rw [renderLayout_doacao]
    simp
  · subst h
    rw [renderLayout_contrato]
    simp
  · subst h
    rw [renderLayout_empenho]
    simp

theorem default_mem (tipo visualClass : String) (item : Item) (h : tipo ∉ layoutTypes) :
    P "Número do Processo:" (item.process_number.orElse "-")
        ∈ renderLayout tipo visualClass item
      ∧ publicationLine (item.modality.orElse "") item ∈ renderLayout tipo visualClass item
      ∧ documentLine item ∈ renderLayout tipo visualClass item
      ∧ P "Data de Publicação:" item.date.toStr ∈ renderLayout tipo visualClass item
      ∧ (tipo ≠ "DIVERSOS" →
          P "Data da Abertura:" (item.opening_date.orElse "-")
            ∈ renderLayout tipo visualClass item) := by
  rw [renderLayout_default _ _ _ h]
  refine ⟨by simp, by simp, by simp, by simp, ?_⟩
  intro hd
  simp [hd]

theorem valor_mem (tipo visualClass : String) (item : Item)
    (h : (tipo = "ADITAMENTO" ∨ tipo = "APOSTILAMENTO") ∨ tipo = "CONTRATO"
      ∨ tipo = "EMPENHO") :
    P "Valor:" (item.value.orElse "Sem efeito financeiros")
      ∈ renderLayout tipo visualClass item := by
  rcases h with h | h | h
  · rw [renderLayout_amendment _ _ _ h]
    simp
  · subst h
    rw [renderLayout_contrato]
    simp
  · subst h
    rw [renderLayout_empenho]
    simp

theorem contractLine_mem (tipo visualClass : String) (item : Item)
    (h : tipo = "CONTRATO" ∨ tipo = "EMPENHO") :
    contractLine (if tipo = "EMPENHO" then "Nota de Empenho" else "Contrato") item
      ∈ renderLayout tipo visualClass item := by
  rcases h with h | h
  · subst h
    rw [renderLayout_contrato]
    simp
  · subst h
    rw [renderLayout_empenho]
    simp

/-- C15, as stated, fails: in the block of the record with every field absent the
publication date is shown as the text `undefined` and the modality as empty text. -/
theorem absent_date_shown_as_undefined :
    emptyRecord.date = .undefined ∧ emptyRecord.modality = .undefined
      ∧ renderItem upperLatin1 emptyRecord
        = [ "<div class=\"text-item type-outro\">",
            "<p><strong>Número do Processo:</strong> -</p>",
            "<p>\n                <strong>Número da Publicação: </strong> \n                <a href=\"undefined\" target=\"_blank\" style=\"color:blue;text-decoration:none\">PUBLICACAO S/N</a>\n             </p>",
            "<p><strong>Documento: </strong> <a href=\"undefined\" target=\"_blank\" style=\"color:blue;text-decoration:none\">-</a></p>",
            "<p><strong>Licitante Vencedor:</strong> EM PROCESSO</p>",
            "<p><strong>Modalidade:</strong> </p>",
            "<p><strong>Data da Abertura:</strong> -</p>",
            "<p><strong>Objeto:</strong> -</p>",
            "<p><strong>Data de Publicação:</strong> undefined</p>",
            "</div>" ]
      ∧ (renderItem upperLatin1 emptyRecord).get? 8
        = some "<p><strong>Data de Publicação:</strong> undefined</p>"
      ∧ (renderItem upperLatin1 emptyRecord).get? 5
        = some "<p><strong>Modalidade:</strong> </p>" := by
  exact ⟨rfl, rfl, rfl, rfl, rfl⟩

/-- C15, amended: rendering is total, every record gets its item block, from the
opening tag to the closing tag, whatever fields are absent (`undefined`, `null`) or
empty; an absent or empty `process_number`, `object_text`, `document_id`,
`opening_date` or `validity_end` is shown as the placeholder `-`, an absent or empty
`parent_contract` or `contract_number` as `S/N`, and an absent or empty `value` as
`Sem efeito financeiros` (as `-` in the PARCERIA layout), in every layout that shows
the field. The publication date has no placeholder in any layout: an absent date is
shown as the text `undefined`, a `null` date as the text `null`. The PARCERIA and
DOACAO layouts are given in full; rendering a blank field and rendering the
placeholder text in its place give the same block. -/
theorem renderTextView_placeholders (upper : Char → List Char) (item : Item) :
    (renderItem upper item).head?
        = some ("<div class=\"text-item type-" ++ (determineType upper item).visualClass
            ++ "\">")
      ∧ (renderItem upper item).getLast? = some "</div>"
      ∧ ((determineType upper item).tipo = "PARCERIA" →
          renderItem upper item
            = [ "<div class=\"text-item type-parceria\">",
                "<p><strong>• Processo SEI: </strong> <a href=\"" ++ item.link_html.toStr
                  ++ "\" target=\"_blank\" style=\"color:blue;text-decoration:none\">"
                  ++ item.process_number.orElse "-" ++ "</a></p>",
                "<p>\n                 <strong>Instrumento nº </strong> <a href=\""
                  ++ item.link_pdf.toStr
                  ++ "\" target=\"_blank\" style=\"color:blue;text-decoration:none\">"
                  ++ item.contract_number.orElse "S/N" ++ "</a>\n             </p>",
                "<p><strong>Participe/OS:</strong> " ++ item.contractor.orElse "-" ++ "</p>",
                "<p><strong>Objeto:</strong> " ++ item.object_text.orElse "-" ++ "</p>",
                "<p><strong>Vigência:</strong> "
                  ++ (item.validity_start.orElse "-" ++ " a " ++ item.validity_end.orElse "-")
                  ++ "</p>",
                "<p><strong>Valor:</strong> " ++ item.value.orElse "-" ++ "</p>",
                "<p><strong>Data da Publicação:</strong> " ++ item.date.toStr ++ "</p>",
                "</div>" ])
      ∧ ((determineType upper item).tipo = "DOACAO" →
          renderItem upper item
            = [ "<div class=\"text-item type-doacao\">",
                "<p><strong>• Processo SEI: </strong> <a href=\"" ++ item.link_html.toStr
                  ++ "\" target=\"_blank\" style=\"color:blue;text-decoration:none\">"
                  ++ item.process_number.orElse "-" ++ "</a></p>",
                "<p><strong>Instrumento: </strong> <a href=\"" ++ item.link_pdf.toStr
                  ++ "\" target=\"_blank\" style=\"color:blue;text-decoration:none\">"
                  ++ "Termo de Doação/Comodato</a></p>",
                "<p><strong>Doador/Comodatário:</strong> " ++ item.contractor.orElse "-"
                  ++ "</p>",
                "<p><strong>Objeto:</strong> " ++ item.object_text.orElse "-" ++ "</p>",
                "<p><strong>Encargos:</strong> Sem ônus para a municipalidade</p>",
                "<p><strong>Data da Publicação:</strong> " ++ item.date.toStr ++ "</p>",
                "</div>" ])
      ∧ ((item.process_number = .undefined ∨ item.process_number = .null ∨ item.process_number = .str "") →
          ((determineType upper item).tipo ∈ layoutTypes →
            "<p><strong>• Processo SEI: </strong> <a href=\"" ++ item.link_html.toStr
                ++ "\" target=\"_blank\" style=\"color:blue;text-decoration:none\">" ++ "-"
                ++ "</a></p>" ∈ renderItem upper item)
          ∧ ((determineType upper item).tipo ∉ layoutTypes →
            "<p><strong>Número do Processo:</strong> -</p>" ∈ renderItem upper item))
      ∧ ((item.object_text = .undefined ∨ item.object_text = .null ∨ item.object_text = .str "") →
          "<p><strong>Objeto:</strong> -</p>" ∈ renderItem upper item)
      ∧ ((item.document_id = .undefined ∨ item.document_id = .null ∨ item.document_id = .str "") → (determineType upper item).tipo ∉ layoutTypes →
          "<p><strong>Documento: </strong> <a href=\"" ++ item.link_html.toStr
              ++ "\" target=\"_blank\" style=\"color:blue;text-decoration:none\">" ++ "-"
              ++ "</a></p>" ∈ renderItem upper item)
      ∧ ((item.opening_date = .undefined ∨ item.opening_date = .null ∨ item.opening_date = .str "") → (determineType upper item).tipo ∉ layoutTypes → (determineType upper item).tipo ≠ "DIVERSOS" →
          "<p><strong>Data da Abertura:</strong> -</p>" ∈ renderItem upper item)
      ∧ ((item.validity_end = .undefined ∨ item.validity_end = .null ∨ item.validity_end = .str "") →
          ((determineType upper item).tipo = "PARCERIA" →
            "<p><strong>Vigência:</strong> " ++ (item.validity_start.orElse "-" ++ " a " ++ "-")
              ++ "</p>" ∈ renderItem upper item)
          ∧ ((determineType upper item).tipo = "CONTRATO" →
            "<p><strong>Término da Vigência do Contrato:</strong> -</p>"
              ∈ renderItem upper item)
          ∧ ((determineType upper item).tipo = "ADITAMENTO" ∨ (determineType upper item).tipo = "APOSTILAMENTO" →
            hasLine "Vigência:" (renderItem upper item) = false))
      ∧ ((item.parent_contract = .undefined ∨ item.parent_contract = .null ∨ item.parent_contract = .str "") → (determineType upper item).tipo = "ADITAMENTO" ∨ (determineType upper item).tipo = "APOSTILAMENTO" →
          "<p>\n                 <strong>"
              ++ (if (determineType upper item).tipo = "APOSTILAMENTO" then "Apostilamento" else "Aditamento")
              ++ " nº </strong> <a href=\"" ++ item.link_pdf.toStr
              ++ "\" target=\"_blank\" style=\"color:blue;text-decoration:none\">"
              ++ item.amendment_number.orElse "S/N"
              ++ "</a> \n                 <strong>ao Contrato nº </strong> " ++ "S/N"
              ++ "\n             </p>" ∈ renderItem upper item)
      ∧ ((item.contract_number = .undefined ∨ item.contract_number = .null ∨ item.contract_number = .str "") →
          ((determineType upper item).tipo = "PARCERIA" →
            "<p>\n                 <strong>Instrumento nº </strong> <a href=\""
                ++ item.link_pdf.toStr
                ++ "\" target=\"_blank\" style=\"color:blue;text-decoration:none\">" ++ "S/N"
                ++ "</a>\n             </p>" ∈ renderItem upper item)
          ∧ ((determineType upper item).tipo = "CONTRATO" ∨ (determineType upper item).tipo = "EMPENHO" →
            "<p>\n                <strong>"
                ++ (if (determineType upper item).tipo = "EMPENHO" then "Nota de Empenho" else "Contrato")
                ++ " nº </strong> <a href=\"" ++ item.link_pdf.toStr
                ++ "\" target=\"_blank\" style=\"color:blue;text-decoration:none\">" ++ "S/N"
                ++ "</a> - " ++ item.contractor.toStr ++ " "
                ++ (if item.company_doc.present = true then ", " ++ item.company_doc.text
                    else "")
                ++ "\n            </p>" ∈ renderItem upper item)
          ∧ ((determineType upper item).tipo ∉ layoutTypes →
            "<p>\n                <strong>Número da Publicação: </strong> \n                <a href=\""
                ++ item.link_pdf.toStr
                ++ "\" target=\"_blank\" style=\"color:blue;text-decoration:none\">"
                ++ (if item.modality.present = true then item.modality.text else "PUBLICACAO")
                ++ " " ++ "S/N" ++ "</a>\n             </p>" ∈ renderItem upper item))
      ∧ ((item.value = .undefined ∨ item.value = .null ∨ item.value = .str "") →
          (((determineType upper item).tipo = "ADITAMENTO" ∨ (determineType upper item).tipo = "APOSTILAMENTO") ∨ (determineType upper item).tipo = "CONTRATO"
              ∨ (determineType upper item).tipo = "EMPENHO" →
            "<p><strong>Valor:</strong> Sem efeito financeiros</p>" ∈ renderItem upper item)
          ∧ ((determineType upper item).tipo = "PARCERIA" →
            "<p><strong>Valor:</strong> -</p>" ∈ renderItem upper item))
      ∧ (item.date = .undefined →
          ((determineType upper item).tipo ∈ layoutTypes →
            "<p><strong>Data da Publicação:</strong> undefined</p>" ∈ renderItem upper item)
          ∧ ((determineType upper item).tipo ∉ layoutTypes →
            "<p><strong>Data de Publicação:</strong> undefined</p>" ∈ renderItem upper item))
      ∧ (item.date = .null →
          ((determineType upper item).tipo ∈ layoutTypes →
            "<p><strong>Data da Publicação:</strong> null</p>" ∈ renderItem upper item)
          ∧ ((determineType upper item).tipo ∉ layoutTypes →
            "<p><strong>Data de Publicação:</strong> null</p>" ∈ renderItem upper item))
      ∧ (∀ blank : JSValue, blank = .undefined ∨ blank = .null ∨ blank = .str "" →
          renderItem upper { item with process_number := blank }
            = renderItem upper { item with process_number := .str "-" }
          ∧ renderItem upper { item with object_text := blank }
            = renderItem upper { item with object_text := .str "-" }
          ∧ renderItem upper { item with document_id := blank }
            = renderItem upper { item with document_id := .str "-" }
          ∧ renderItem upper { item with opening_date := blank }
            = renderItem upper { item with opening_date := .str "-" }
          ∧ renderItem upper { item with validity_end := blank }
            = renderItem upper { item with validity_end := .str "-" }
          ∧ renderItem upper { item with parent_contract := blank }
            = renderItem upper { item with parent_contract := .str "S/N" }
          ∧ renderItem upper { item with contract_number := blank }
            = renderItem upper { item with contract_number := .str "S/N" }
          ∧ renderItem upper { item with value := blank }
            = renderItem upper
                { item with
                  value := .str (if (determineType upper item).tipo = "PARCERIA" then "-"
                    else "Sem efeito financeiros") }
          ∧ renderItem upper { item with date := .undefined }
            = renderItem upper { item with date := .str "undefined" }
          ∧ renderItem upper { item with date := .null }
            = renderItem upper { item with date := .str "null" }) := by
  have hparc : (determineType upper item).tipo = "PARCERIA" →
      renderItem upper item = renderLayout "PARCERIA" "parceria" item :=
    fun h => renderItem_parceria upper item h
  refine ⟨(renderLayout_open_close _ _ item).1, (renderLayout_open_close _ _ item).2,
    ?_, ?_, ?_, ?_, ?_, ?_, ?_, ?_, ?_, ?_, ?_, ?_, ?_⟩
  · intro ht
    rw [hparc ht, renderLayout_parceria]
    rfl
  · intro ht
    rw [renderItem_doacao upper item ht, renderLayout_doacao]
    rfl
  · intro hb
    constructor
    · intro ht
      have h := processLink_mem _ (determineType upper item).visualClass item ht
      unfold processLink at h
      rw [JSValue.orElse_blank _ _ hb] at h
      exact h
    · intro ht
      have h := (default_mem _ (determineType upper item).visualClass item ht).1
      rw [JSValue.orElse_blank _ _ hb] at h
      exact h
  · intro hb
    have h := objeto_mem (determineType upper item).tipo (determineType upper item).visualClass item
    rw [JSValue.orElse_blank _ _ hb] at h
    exact h
  · intro hb ht
    have h := (default_mem _ (determineType upper item).visualClass item ht).2.2.1
    unfold documentLine at h
    rw [JSValue.orElse_blank _ _ hb] at h
    exact h
  · intro hb ht hd
    have h := (default_mem _ (determineType upper item).visualClass item ht).2.2.2.2 hd
    rw [JSValue.orElse_blank _ _ hb] at h
    exact h
  · intro hb
    refine ⟨?_, ?_, ?_⟩
    · intro ht
      rw [hparc ht, renderLayout_parceria, JSValue.orElse_blank item.validity_end _ hb]
      simp only [List.mem_cons]
      exact Or.inr (Or.inr (Or.inr (Or.inr (Or.inr (Or.inl rfl)))))
    · intro ht
      rw [renderItem_contrato upper item ht, renderLayout_contrato,
        JSValue.orElse_blank item.validity_end _ hb]
      have h : P "Término da Vigência do Contrato:" "-"
          ∈ [ itemOpen "contrato", processLink item, contractLine "Contrato" item ]
            ++ (if item.modality.present = true then [P "Modalidade:" item.modality.text]
                else [])
            ++ [ P "Objeto:" (item.object_text.orElse "-"),
                 P "Data da Assinatura:" (item.validity_start.orElse "-"),
                 P "Início da Vigência do Contrato:" (item.validity_start.orElse "-"),
                 P "Término da Vigência do Contrato:" "-",
                 P "Data da Publicação:" item.date.toStr,
                 P "Valor:" (item.value.orElse "Sem efeito financeiros"), "</div>" ] := by
        simp
      exact h
    · intro ht
      have hp : item.validity_end.present = false := by
        rcases hb with h | h | h <;> rw [h] <;> rfl
      rw [renderItem_amendment upper item ht, renderLayout_amendment _ _ _ ht, hp]
      by_cases hm : item.modality.present = true
      · rw [if_pos hm]
        rfl
      · rw [if_neg hm]
        rfl
  · intro hb ht
    have h : amendmentLine
        (if (determineType upper item).tipo = "APOSTILAMENTO" then "Apostilamento" else "Aditamento") item
        ∈ renderItem upper item := by
      rw [renderItem_amendment upper item ht, renderLayout_amendment _ _ _ ht]
      simp
    unfold amendmentLine at h
    simp only [JSValue.orElse_blank item.parent_contract _ hb] at h
    exact h
  · intro hb
    refine ⟨?_, ?_, ?_⟩
    · intro ht
      have h : partnershipLine item ∈ renderItem upper item := by
        rw [hparc ht, renderLayout_parceria]
        simp
      unfold partnershipLine at h
      simp only [JSValue.orElse_blank item.contract_number _ hb] at h
      exact h
    · intro ht
      have h := contractLine_mem _ (determineType upper item).visualClass item ht
      unfold contractLine at h
      simp only [JSValue.truthy_blank _ hb, Bool.false_and, Bool.false_eq_true, if_false,
        companyDocSuffix_eq] at h
      exact h
    · intro ht
      have h := (default_mem _ (determineType upper item).visualClass item ht).2.1
      rw [publicationLine_eq] at h
      have hm : (match item.contract_number with
          | .str n => if jsLength n > 2 then n else "S/N"
          | _ => "S/N") = "S/N" := by
        rcases hb with h | h | h
        · rw [h]
        · rw [h]
        · rw [h]
          rfl
      rw [hm] at h
      exact h
  · intro hb
    constructor
    · intro ht
      have h := valor_mem _ (determineType upper item).visualClass item ht
      rw [JSValue.orElse_blank _ _ hb] at h
      exact h
    · intro ht
      rw [hparc ht, renderLayout_parceria, JSValue.orElse_blank item.value _ hb]
      simp only [List.mem_cons]
      exact Or.inr (Or.inr (Or.inr (Or.inr (Or.inr (Or.inr (Or.inl rfl))))))
  · intro hd
    constructor
    · intro ht
      have h := publicacao_mem _ (determineType upper item).visualClass item ht
      rw [hd] at h
      exact h
    · intro ht
      have h := (default_mem _ (determineType upper item).visualClass item ht).2.2.2.1
      rw [hd] at h
      exact h
  · intro hd
    constructor
    · intro ht
      have h := publicacao_mem _ (determineType upper item).visualClass item ht
      rw [hd] at h
      exact h
    · intro ht
      have h := (default_mem _ (determineType upper item).visualClass item ht).2.2.2.1
      rw [hd] at h
      exact h
  · intro blank hb
    exact ⟨renderLayout_process_number _ _ item blank hb,
      renderLayout_object_text _ _ item blank hb, renderLayout_document_id _ _ item blank hb,
      renderLayout_opening_date _ _ item blank hb, renderLayout_validity_end _ _ item blank hb,
      renderLayout_parent_contract _ _ item blank hb,
      renderLayout_contract_number _ _ item blank hb, renderLayout_value _ _ item blank hb,
      rfl, rfl⟩

theorem renderTextView_placeholders_witness :
    (determineType upperLatin1 fomentoRecord).tipo = "PARCERIA"
      ∧ renderItem upperLatin1 fomentoRecord
        = [ "<div class=\"text-item type-parceria\">",
            "<p><strong>• Processo SEI: </strong> <a href=\"undefined\" target=\"_blank\" style=\"color:blue;text-decoration:none\">-</a></p>",
            "<p>\n                 <strong>Instrumento nº </strong> <a href=\"undefined\" target=\"_blank\" style=\"color:blue;text-decoration:none\">S/N</a>\n             </p>",
            "<p><strong>Participe/OS:</strong> -</p>",
            "<p><strong>Objeto:</strong> -</p>",
            "<p><strong>Vigência:</strong> - a -</p>",
            "<p><strong>Valor:</strong> -</p>",
            "<p><strong>Data da Publicação:</strong> undefined</p>",
            "</div>" ]
      ∧ (determineType upperLatin1 doacaoBlankRecord).tipo = "DOACAO"
      ∧ renderItem upperLatin1 doacaoBlankRecord
        = [ "<div class=\"text-item type-doacao\">",
            "<p><strong>• Processo SEI: </strong> <a href=\"undefined\" target=\"_blank\" style=\"color:blue;text-decoration:none\">-</a></p>",
            "<p><strong>Instrumento: </strong> <a href=\"undefined\" target=\"_blank\" style=\"color:blue;text-decoration:none\">Termo de Doação/Comodato</a></p>",
            "<p><strong>Doador/Comodatário:</strong> -</p>",
            "<p><strong>Objeto:</strong> -</p>",
            "<p><strong>Encargos:</strong> Sem ônus para a municipalidade</p>",
            "<p><strong>Data da Publicação:</strong> undefined</p>",
            "</div>" ]
      ∧ (emptyRecord.object_text = .undefined ∨ emptyRecord.object_text = .null
          ∨ emptyRecord.object_text = .str "")
      ∧ "<p><strong>Objeto:</strong> -</p>" ∈ renderItem upperLatin1 emptyRecord
      ∧ (determineType upperLatin1 emptyRecord).tipo ∉ layoutTypes
      ∧ "<p><strong>Data de Publicação:</strong> undefined</p>"
        ∈ renderItem upperLatin1 emptyRecord
      ∧ renderItem upperLatin1 { fullContrato with value := .null }
        = renderItem upperLatin1 { fullContrato with value := .str "Sem efeito financeiros" }
      ∧ (determineType upperLatin1 fullParceria).tipo = "PARCERIA"
      ∧ renderItem upperLatin1 fullParceria
        = [ "<div class=\"text-item type-parceria\">",
            "<p><strong>• Processo SEI: </strong> <a href=\"https://diario.example/1.html\" target=\"_blank\" style=\"color:blue;text-decoration:none\">6016.2025/0001-1</a></p>",
            "<p>\n                 <strong>Instrumento nº </strong> <a href=\"https://diario.example/1.pdf\" target=\"_blank\" style=\"color:blue;text-decoration:none\">3/2025</a>\n             </p>",
            "<p><strong>Participe/OS:</strong> Instituto Sul</p>",
            "<p><strong>Objeto:</strong> Oficinas culturais</p>",
            "<p><strong>Vigência:</strong> 01/11/2025 a 31/10/2026</p>",
            "<p><strong>Valor:</strong> R$ 1.000,00</p>",
            "<p><strong>Data da Publicação:</strong> 04/11/2025</p>",
            "</div>" ]
      ∧ (determineType upperLatin1 fullDoacao).tipo = "DOACAO"
      ∧ renderItem upperLatin1 fullDoacao
        = [ "<div class=\"text-item type-doacao\">",
            "<p><strong>• Processo SEI: </strong> <a href=\"https://diario.example/1.html\" target=\"_blank\" style=\"color:blue;text-decoration:none\">6016.2025/0001-1</a></p>",
            "<p><strong>Instrumento: </strong> <a href=\"https://diario.example/1.pdf\" target=\"_blank\" style=\"color:blue;text-decoration:none\">Termo de Doação/Comodato</a></p>",
            "<p><strong>Doador/Comodatário:</strong> Maria Silva</p>",
            "<p><strong>Objeto:</strong> Livros</p>",
            "<p><strong>Encargos:</strong> Sem ônus para a municipalidade</p>",
            "<p><strong>Data da Publicação:</strong> 04/11/2025</p>",
            "</div>" ] :=
  ⟨by decide,
    ((renderTextView_placeholders upperLatin1 fomentoRecord).2.2.1 (by decide)).trans rfl,
    by decide,
    ((renderTextView_placeholders upperLatin1 doacaoBlankRecord).2.2.2.1 (by decide)).trans rfl,
    Or.inl rfl,
    (renderTextView_placeholders upperLatin1 emptyRecord).2.2.2.2.2.1 (Or.inl rfl),
    by decide,
    ((renderTextView_placeholders upperLatin1 emptyRecord).2.2.2.2.2.2.2.2.2.2.2.2.1 rfl).2
      (by decide),
    ((renderTextView_placeholders upperLatin1 fullContrato).2.2.2.2.2.2.2.2.2.2.2.2.2.2 .null
      (Or.inr (Or.inl rfl))).2.2.2.2.2.2.2.1,
    by decide,
    ((renderTextView_placeholders upperLatin1 fullParceria).2.2.1 (by decide)).trans rfl,
    by decide,
    ((renderTextView_placeholders upperLatin1 fullDoacao).2.2.2.1 (by decide)).trans rfl⟩

/-! ## Redundant and necessary triggers -/

theorem includes_trans (s mid pat : String) (h1 : includes s mid = true)
    (h2 : includes mid pat = true) : includes s pat = true := by
  rw [includes_iff] at h1 h2 ⊢
  exact h2.trans h1

theorem includes_colaboracao (ft : String)
    (h : includes ft "TERMO DE COLABORAÇÃO" = true) : includes ft "COLABORAÇÃO" = true :=
  includes_trans ft "TERMO DE COLABORAÇÃO" "COLABORAÇÃO" h (by decide)

theorem determineTipoWithoutTermoDeColaboracao_eq (item : Item) (ft : String) :
    determineTipoWithoutTermoDeColaboracao item ft = determineTipo item ft := by
  have hpar : (includes ft "FOMENTO" || includes ft "COLABORAÇÃO" || includes ft "COOPERAÇÃO"
        || includes ft "TERMO DE COLABORAÇÃO")
      = (includes ft "FOMENTO" || includes ft "COLABORAÇÃO" || includes ft "COOPERAÇÃO") := by
    cases hd : includes ft "TERMO DE COLABORAÇÃO" with
    | false => simp
    | true => simp [includes_colaboracao ft hd]
  unfold determineTipoWithoutTermoDeColaboracao determineTipo
  simp only [hpar]

/-- C21: the PARCERIA trigger `TERMO DE COLABORAÇÃO` is redundant: with its check
deleted (and `FOMENTO`, `COLABORAÇÃO`, `COOPERAÇÃO` kept) the classifier returns the
tipo of `determineType` for every record, because a haystack that contains
`TERMO DE COLABORAÇÃO` contains `COLABORAÇÃO`. The strong-contract rule is not
redundant: a record without hint whose haystack contains `TERMO DE CONTRATO` and
`PREGÃO` is typed CONTRATO, and PREGAO once the strong rule is deleted. -/
theorem termo_de_colaboracao_redundant :
    (∀ (upper : Char → List Char) (item : Item),
        determineTipoWithoutTermoDeColaboracao item (fullTermOf upper item)
          = (determineType upper item).tipo)
      ∧ (∀ (item : Item) (ft : String),
          determineTipoWithoutTermoDeColaboracao item ft = determineTipo item ft)
      ∧ (∀ ft : String, includes ft "TERMO DE COLABORAÇÃO" = true →
          includes ft "COLABORAÇÃO" = true)
      ∧ (determineType upperLatin1 termoDeColaboracaoRecord).tipo = "PARCERIA"
      ∧ determineTipoWithoutTermoDeColaboracao termoDeColaboracaoRecord
          (fullTermOf upperLatin1 termoDeColaboracaoRecord) = "PARCERIA"
      ∧ NoHint termoDeContratoPregao
      ∧ includes (fullTermOf upperLatin1 termoDeContratoPregao) "TERMO DE CONTRATO" = true
      ∧ includes (fullTermOf upperLatin1 termoDeContratoPregao) "PREGÃO" = true
      ∧ (determineType upperLatin1 termoDeContratoPregao).tipo = "CONTRATO"
      ∧ determineTipoWithoutStrongContract termoDeContratoPregao
          (fullTermOf upperLatin1 termoDeContratoPregao) = "PREGAO"
      ∧ determineTipoWithoutStrongContract termoDeContratoPregao
          (fullTermOf upperLatin1 termoDeContratoPregao)
        ≠ (determineType upperLatin1 termoDeContratoPregao).tipo := by
  refine ⟨?_, determineTipoWithoutTermoDeColaboracao_eq, includes_colaboracao,
    by decide, by decide, Or.inl rfl, by decide, by decide, by decide, by decide, by decide⟩
  intro upper item
  rw [determineType_tipo, determineTipoWithoutTermoDeColaboracao_eq]

theorem termo_de_colaboracao_redundant_witness :
    includes (fullTermOf upperLatin1 termoDeColaboracaoRecord) "TERMO DE COLABORAÇÃO" = true
      ∧ includes (fullTermOf upperLatin1 termoDeColaboracaoRecord) "COLABORAÇÃO" = true :=
  ⟨by decide,
    termo_de_colaboracao_redundant.2.2.1 (fullTermOf upperLatin1 termoDeColaboracaoRecord)
      (by decide)⟩

end DiarioScraper
